import Mathlib

/-!
The libLAS point record (`src/laspoint.cpp`).

A shallow embedding of `liblas::Point`: the record, the four setters of the
packed flags byte, the coordinate transform and the two validity checks.

Conventions of the embedding
* `uint8_t`, `uint16_t` and `unsigned int` values are natural numbers; every
  narrowing conversion of the source is an explicit `% 256`.
* `int8_t` values and the scan-angle bounds are integers.
* `double` values are rationals: the arithmetic of the record is exact here.
* A member function `void Point::F(args)` is a function `Point → args → Point`
  returning the record after the call; a `const` member function is a function
  of the record.
* The copy constructor and the assignment are embedded twice: on records as
  values, and on objects in a memory where vectors and the header pointer hold
  addresses, so that a copied buffer and a shared one are told apart.
* The class declaration (`laspoint.hpp`) is not among the sources. The inline
  getters it holds and the overload `SetCoordinates(x, y, z)` are written from
  the specification, and the enumerators it declares are parameters.
-/

namespace liblas

/-! ## Data model -/

/-- Modelled from the spec: the colour of a point, "an opaque fixed-size value
(RGB triple)"; its class is declared outside `laspoint.cpp`. -/
structure Color where
  red : Nat
  green : Nat
  blue : Nat
  deriving DecidableEq, Repr

/-- Modelled from the spec: the classification of a point, "a small wrapped
value representing an 8-bit classification code"; its class is declared
outside `laspoint.cpp`. -/
structure Classification where
  m_flags : Nat
  deriving DecidableEq, Repr

/-- Modelled from the spec: the external header, of which the record uses
"six scalar read accessors (ScaleX, ScaleY, ScaleZ, OffsetX, OffsetY,
OffsetZ), each returning a double". -/
structure Header where
  scaleX : ℚ
  scaleY : ℚ
  scaleZ : ℚ
  offsetX : ℚ
  offsetY : ℚ
  offsetZ : ℚ
  deriving DecidableEq, Repr

namespace Header

/-- Modelled from the spec: accessor `ScaleX` of the header. -/
def GetScaleX (h : Header) : ℚ := h.scaleX
/-- Modelled from the spec: accessor `ScaleY` of the header. -/
def GetScaleY (h : Header) : ℚ := h.scaleY
/-- Modelled from the spec: accessor `ScaleZ` of the header. -/
def GetScaleZ (h : Header) : ℚ := h.scaleZ
/-- Modelled from the spec: accessor `OffsetX` of the header. -/
def GetOffsetX (h : Header) : ℚ := h.offsetX
/-- Modelled from the spec: accessor `OffsetY` of the header. -/
def GetOffsetY (h : Header) : ℚ := h.offsetY
/-- Modelled from the spec: accessor `OffsetZ` of the header. -/
def GetOffsetZ (h : Header) : ℚ := h.offsetZ

end Header

/-- The data members of `liblas::Point`, as they are initialised, copied and
written in `laspoint.cpp`. `m_coords` is the array `double m_coords[3]`,
`m_hdr` the header pointer (`none` is the empty `HeaderPtr()`), and the two
buffers are `std::vector<uint8_t>`. -/
structure Point where
  m_coords : ℚ × ℚ × ℚ
  m_gpsTime : ℚ
  m_color : Color
  m_cls : Classification
  m_intensity : Nat
  m_pointSourceId : Nat
  m_flags : Nat
  m_userData : Nat
  m_angleRank : Int
  m_hdr : Option Header
  m_extra_data : List Nat
  m_format_data : List Nat
  deriving DecidableEq, Repr

/-- The conversion `static_cast<uint8_t>(n)`. -/
def static_cast_uint8 (n : Nat) : Nat := n % 256

/-- The operand `~mask` of `m_flags &= ~mask`, for a `uint8_t` mask. The
operands are promoted to `int`, so `~mask` has every bit above bit 7 set; the
other operand is a byte, so only the bits 0-7 of `~mask` meet a set bit, and
those are the bits of `255 - mask`. -/
def complMask (mask : Nat) : Nat := 255 - mask

namespace Point

/-! ## Flags setters (`laspoint.cpp`, lines 114-144) -/

/-- The function `Point::SetReturnNumber`: store the value in bits 0, 1, 2. -/
def SetReturnNumber (p : Point) (num : Nat) : Point :=
  let mask : Nat := static_cast_uint8 (0x7 <<< 0)
  let cleared : Nat := static_cast_uint8 (p.m_flags &&& complMask mask)
  { p with m_flags := static_cast_uint8 (cleared ||| (mask &&& (static_cast_uint8 num <<< 0))) }

/-- The function `Point::SetNumberOfReturns`: store the value in bits 3, 4, 5. -/
def SetNumberOfReturns (p : Point) (num : Nat) : Point :=
  let mask : Nat := static_cast_uint8 (0x7 <<< 3)
  let cleared : Nat := static_cast_uint8 (p.m_flags &&& complMask mask)
  { p with m_flags := static_cast_uint8 (cleared ||| (mask &&& (static_cast_uint8 num <<< 3))) }

/-- The function `Point::SetScanDirection`: store the value in bit 6. -/
def SetScanDirection (p : Point) (dir : Nat) : Point :=
  let mask : Nat := static_cast_uint8 (0x1 <<< 6)
  let cleared : Nat := static_cast_uint8 (p.m_flags &&& complMask mask)
  { p with m_flags := static_cast_uint8 (cleared ||| (mask &&& (static_cast_uint8 dir <<< 6))) }

/-- The function `Point::SetFlightLineEdge`: store the value in bit 7. -/
def SetFlightLineEdge (p : Point) (edge : Nat) : Point :=
  let mask : Nat := static_cast_uint8 (0x1 <<< 7)
  let cleared : Nat := static_cast_uint8 (p.m_flags &&& complMask mask)
  { p with m_flags := static_cast_uint8 (cleared ||| (mask &&& (static_cast_uint8 edge <<< 7))) }

/-- The function `Point::SetScanAngleRank`. -/
def SetScanAngleRank (p : Point) (rank : Int) : Point :=
  { p with m_angleRank := rank }

/-! ## Getters (declared inline in the class declaration) -/

/-- Modelled from the spec: the inline getter of Return Number, which is not
in `laspoint.cpp`: "Getters extract and right-shift the corresponding bits
without sign extension", here bits 0-2. -/
def GetReturnNumber (p : Point) : Nat := (p.m_flags &&& 0x07) >>> 0

/-- Modelled from the spec: the inline getter of Number of Returns, which is
not in `laspoint.cpp`: bits 3-5, extracted and shifted right. -/
def GetNumberOfReturns (p : Point) : Nat := (p.m_flags &&& 0x38) >>> 3

/-- Modelled from the spec: the inline getter of Scan Direction, which is not
in `laspoint.cpp`: bit 6, extracted and shifted right. -/
def GetScanDirection (p : Point) : Nat := (p.m_flags &&& 0x40) >>> 6

/-- Modelled from the spec: the inline getter of Flight-Line Edge, which is
not in `laspoint.cpp`: bit 7, extracted and shifted right. -/
def GetFlightLineEdge (p : Point) : Nat := (p.m_flags &&& 0x80) >>> 7

/-- Modelled from the spec: the inline getter of Scan Angle Rank, which is not
in `laspoint.cpp`; it returns the member that `SetScanAngleRank` writes. -/
def GetScanAngleRank (p : Point) : Int := p.m_angleRank

/-! ## Coordinates (`laspoint.cpp`, lines 105-112) -/

/-- Modelled from the spec: the inline overload `SetCoordinates(x, y, z)`,
which is not in `laspoint.cpp`: it "stores the three values directly without
any transform". -/
def SetCoordinates3 (p : Point) (x y z : ℚ) : Point :=
  { p with m_coords := (x, y, z) }

/-- The function `Point::SetCoordinates(Header const&, double, double, double)`. -/
def SetCoordinates (p : Point) (header : Header) (x y z : ℚ) : Point :=
  let cx : ℚ := (x * header.GetScaleX) + header.GetOffsetX
  let cy : ℚ := (y * header.GetScaleY) + header.GetOffsetY
  let cz : ℚ := (z * header.GetScaleZ) + header.GetOffsetZ
  p.SetCoordinates3 cx cy cz

end Point

/-! ## Validation (`laspoint.cpp`, lines 208-261) -/

/-- The enumerators that `Validate` and `IsValid` use. They are declared in
the class declaration, which is not among the sources, so their values are
parameters of the two checks: the five rule flags of the violation bitmask
and the two bounds of the scan angle rank. -/
structure Enumerators where
  eReturnNumber : Nat
  eNumberOfReturns : Nat
  eScanDirection : Nat
  eFlightLineEdge : Nat
  eScanAngleRank : Nat
  eScanAngleRankMin : Int
  eScanAngleRankMax : Int
  deriving DecidableEq, Repr

/-- Every rule flag is a non-zero value ("one flag bit per rule"). -/
def Enumerators.FlagsNonzero (E : Enumerators) : Prop :=
  0 < E.eReturnNumber ∧ 0 < E.eNumberOfReturns ∧ 0 < E.eScanDirection ∧
    0 < E.eFlightLineEdge ∧ 0 < E.eScanAngleRank

instance (E : Enumerators) : Decidable E.FlagsNonzero := by
  unfold Enumerators.FlagsNonzero; infer_instance

/-- An instance of the enumerators used to evaluate the checks on concrete
records: one bit per rule and a range symmetric around zero. -/
def sampleEnumerators : Enumerators :=
  { eReturnNumber := 1, eNumberOfReturns := 2, eScanDirection := 4,
    eFlightLineEdge := 8, eScanAngleRank := 32,
    eScanAngleRankMin := -90, eScanAngleRankMax := 90 }

/-- The exception `invalid_point_data(msg, flags)` thrown by `Validate`: a
message and the bitmask of the violated rules. -/
structure invalid_point_data where
  what : String
  who : Nat
  deriving DecidableEq, Repr

namespace Point

/-- The local variable `flags` of `Point::Validate` after its five tests: the
first part of the body of the function, up to the test `flags > 0`. The
variable is an `unsigned int` that only ever receives `|=` of enumerators, so
no conversion narrows it. -/
def ValidateFlags (E : Enumerators) (p : Point) : Nat :=
  let flags : Nat := 0
  let flags := if p.GetReturnNumber > 0x07 then flags ||| E.eReturnNumber else flags
  let flags := if p.GetNumberOfReturns > 0x07 then flags ||| E.eNumberOfReturns else flags
  let flags := if p.GetScanDirection > 0x01 then flags ||| E.eScanDirection else flags
  let flags := if p.GetFlightLineEdge > 0x01 then flags ||| E.eFlightLineEdge else flags
  let flags :=
    if E.eScanAngleRankMin > p.GetScanAngleRank ∨ p.GetScanAngleRank > E.eScanAngleRankMax then
      flags ||| E.eScanAngleRank
    else flags
  flags

/-- The function `Point::Validate`: the result is `Except.ok true` when the function
returns `true` and `Except.error e` when it throws `e`. -/
def Validate (E : Enumerators) (p : Point) : Except invalid_point_data Bool :=
  let flags : Nat := ValidateFlags E p
  if flags > 0 then
    Except.error ⟨"point data members out of range", flags⟩
  else
    Except.ok true

/-- The function `Point::IsValid`. -/
def IsValid (E : Enumerators) (p : Point) : Bool :=
  if E.eScanAngleRankMin > p.GetScanAngleRank ∨ p.GetScanAngleRank > E.eScanAngleRankMax then
    false
  else if p.GetFlightLineEdge > 0x01 then
    false
  else if p.GetScanDirection > 0x01 then
    false
  else if p.GetNumberOfReturns > 0x07 then
    false
  else if p.GetReturnNumber > 0x07 then
    false
  else
    true

end Point

/-! ## Sequences of calls to the flags setters -/

/-- One call to one of the four flags setters, with its argument. -/
inductive FlagsCall where
  | ReturnNumber (num : Nat)
  | NumberOfReturns (num : Nat)
  | ScanDirection (dir : Nat)
  | FlightLineEdge (edge : Nat)
  deriving DecidableEq, Repr

namespace FlagsCall

/-- The record after the call. -/
def run (p : Point) : FlagsCall → Point
  | ReturnNumber num => p.SetReturnNumber num
  | NumberOfReturns num => p.SetNumberOfReturns num
  | ScanDirection dir => p.SetScanDirection dir
  | FlightLineEdge edge => p.SetFlightLineEdge edge

/-- The record after a sequence of calls, made from the head of the list to
its end. -/
def runAll (p : Point) (calls : List FlagsCall) : Point :=
  calls.foldl run p

/-- The argument fits the width of the sub-field the call sets. -/
def InWidth : FlagsCall → Prop
  | ReturnNumber num => num ≤ 7
  | NumberOfReturns num => num ≤ 7
  | ScanDirection dir => dir ≤ 1
  | FlightLineEdge edge => edge ≤ 1

instance (c : FlagsCall) : Decidable c.InWidth := by
  cases c <;> unfold InWidth <;> infer_instance

/-- The argument of a call to `SetReturnNumber`, no value for another call. -/
def argReturnNumber : FlagsCall → Option Nat
  | ReturnNumber num => some num
  | _ => none

/-- The argument of a call to `SetNumberOfReturns`, no value for another call. -/
def argNumberOfReturns : FlagsCall → Option Nat
  | NumberOfReturns num => some num
  | _ => none

/-- The argument of a call to `SetScanDirection`, no value for another call. -/
def argScanDirection : FlagsCall → Option Nat
  | ScanDirection dir => some dir
  | _ => none

/-- The argument of a call to `SetFlightLineEdge`, no value for another call. -/
def argFlightLineEdge : FlagsCall → Option Nat
  | FlightLineEdge edge => some edge
  | _ => none

/-- The value most recently set: the argument of the last call in the sequence
that `arg` selects, or `initial` when the sequence holds no such call. -/
def mostRecent (arg : FlagsCall → Option Nat) (initial : Nat) (calls : List FlagsCall) : Nat :=
  ((calls.filterMap arg).getLast?).getD initial

end FlagsCall

/-! ## The rules of validation, as the specification words them -/

/-- Rule 1 is violated: Return Number is not `≤ 7`. -/
def ruleReturnNumberViolated (p : Point) : Prop := ¬ p.GetReturnNumber ≤ 7
/-- Rule 2 is violated: Number of Returns is not `≤ 7`. -/
def ruleNumberOfReturnsViolated (p : Point) : Prop := ¬ p.GetNumberOfReturns ≤ 7
/-- Rule 3 is violated: Scan Direction is not `≤ 1`. -/
def ruleScanDirectionViolated (p : Point) : Prop := ¬ p.GetScanDirection ≤ 1
/-- Rule 4 is violated: Flight-Line Edge is not `≤ 1`. -/
def ruleFlightLineEdgeViolated (p : Point) : Prop := ¬ p.GetFlightLineEdge ≤ 1
/-- Rule 5 is violated: Scan Angle Rank is outside the closed range
`[eScanAngleRankMin, eScanAngleRankMax]`. -/
def ruleScanAngleRankViolated (E : Enumerators) (p : Point) : Prop :=
  ¬ (E.eScanAngleRankMin ≤ p.GetScanAngleRank ∧ p.GetScanAngleRank ≤ E.eScanAngleRankMax)

instance (p : Point) : Decidable (ruleReturnNumberViolated p) := by
  unfold ruleReturnNumberViolated; infer_instance
instance (p : Point) : Decidable (ruleNumberOfReturnsViolated p) := by
  unfold ruleNumberOfReturnsViolated; infer_instance
instance (p : Point) : Decidable (ruleScanDirectionViolated p) := by
  unfold ruleScanDirectionViolated; infer_instance
instance (p : Point) : Decidable (ruleFlightLineEdgeViolated p) := by
  unfold ruleFlightLineEdgeViolated; infer_instance
instance (E : Enumerators) (p : Point) : Decidable (ruleScanAngleRankViolated E p) := by
  unfold ruleScanAngleRankViolated; infer_instance

/-- The bitmask the specification asks of `Validate`: the bitwise OR of the
flags of the violated rules, and of nothing else. -/
def violationMask (E : Enumerators) (p : Point) : Nat :=
  (if ruleReturnNumberViolated p then E.eReturnNumber else 0) |||
  (if ruleNumberOfReturnsViolated p then E.eNumberOfReturns else 0) |||
  (if ruleScanDirectionViolated p then E.eScanDirection else 0) |||
  (if ruleFlightLineEdgeViolated p then E.eFlightLineEdge else 0) |||
  (if ruleScanAngleRankViolated E p then E.eScanAngleRank else 0)

/-- A record used to evaluate the operations on concrete input: non-zero
members throughout, flags byte `0xA5`. -/
def samplePoint : Point :=
  { m_coords := (1, 2, 3), m_gpsTime := 5, m_color := ⟨1, 2, 3⟩, m_cls := ⟨2⟩,
    m_intensity := 7, m_pointSourceId := 9, m_flags := 0xA5, m_userData := 4,
    m_angleRank := 10, m_hdr := none, m_extra_data := [1, 2], m_format_data := [3] }

/-! ## Construction, copy and assignment (`laspoint.cpp`, lines 52-103) -/

namespace Point

/-- The default constructor `Point::Point()`. The members `m_color` and
`m_cls` are not in its initialiser list, so they are default-constructed; the
classes `Color` and `Classification` are not among the sources, and their
default values are the parameters `color` and `cls`. `memset` zeroes the three
coordinates, `resize(0)` empties the two buffers and `HeaderPtr()` is the empty
header pointer. -/
def Point_default (color : Color) (cls : Classification) : Point :=
  { m_gpsTime := 0,
    m_color := color,
    m_cls := cls,
    m_intensity := 0,
    m_pointSourceId := 0,
    m_flags := 0,
    m_userData := 0,
    m_angleRank := 0,
    m_hdr := none,
    m_coords := (0, 0, 0),
    m_extra_data := [],
    m_format_data := [] }

/-- The copy constructor `Point::Point(Point const& other)`: nine members
from the initialiser list, the coordinates by `memcpy`, and each buffer by
swapping in a temporary `std::vector` copy-constructed from the buffer of
`other`. -/
def Point_copy (other : Point) : Point :=
  { m_gpsTime := other.m_gpsTime,
    m_color := other.m_color,
    m_cls := other.m_cls,
    m_intensity := other.m_intensity,
    m_pointSourceId := other.m_pointSourceId,
    m_flags := other.m_flags,
    m_userData := other.m_userData,
    m_angleRank := other.m_angleRank,
    m_hdr := other.m_hdr,
    m_coords := (other.m_coords.1, other.m_coords.2.1, other.m_coords.2.2),
    m_extra_data := other.m_extra_data,
    m_format_data := other.m_format_data }

/-- The assignment `Point::operator=(Point const& rhs)`, the record after
`p = rhs`. The flag `same` is the outcome of the address test `&rhs == this`:
when it is true the body is skipped (and `rhs` is the record `p` itself). -/
def operator_assign (p rhs : Point) (same : Bool) : Point :=
  if !same then
    let p := { p with m_coords := (rhs.m_coords.1, p.m_coords.2.1, p.m_coords.2.2) }
    let p := { p with m_coords := (p.m_coords.1, rhs.m_coords.2.1, p.m_coords.2.2) }
    let p := { p with m_coords := (p.m_coords.1, p.m_coords.2.1, rhs.m_coords.2.2) }
    let p := { p with m_intensity := rhs.m_intensity }
    let p := { p with m_flags := rhs.m_flags }
    let p := { p with m_cls := rhs.m_cls }
    let p := { p with m_angleRank := rhs.m_angleRank }
    let p := { p with m_userData := rhs.m_userData }
    let p := { p with m_pointSourceId := rhs.m_pointSourceId }
    let p := { p with m_gpsTime := rhs.m_gpsTime }
    let p := { p with m_color := rhs.m_color }
    let p := { p with m_extra_data := rhs.m_extra_data }
    let p := { p with m_format_data := rhs.m_format_data }
    let p := { p with m_hdr := rhs.m_hdr }
    p
  else
    p

end Point

/-! ## Classification (`laspoint.cpp`, lines 156-174) -/

namespace Classification

/-- Modelled from the spec: the construction of a classification "from a raw
bit-pattern value"; the three construction paths "are equivalent in effect",
each wrapping the 8-bit code it is given. -/
def ofBitset (flags : Nat) : Classification := ⟨flags⟩

/-- Modelled from the spec: the construction of a classification "from a raw
byte", equivalent in effect to the other construction paths. -/
def ofByte (flags : Nat) : Classification := ⟨flags⟩

end Classification

namespace Point

/-- The function `Point::GetClassification`. -/
def GetClassification (p : Point) : Classification := p.m_cls

/-- The overload `Point::SetClassification(Classification const& cls)`. -/
def SetClassification (p : Point) (cls : Classification) : Point :=
  { p with m_cls := cls }

/-- The overload `Point::SetClassification(Classification::bitset_type const& flags)`. -/
def SetClassification_bitset (p : Point) (flags : Nat) : Point :=
  { p with m_cls := Classification.ofBitset flags }

/-- The overload `Point::SetClassification(liblas::uint8_t const& flags)`. -/
def SetClassification_uint8 (p : Point) (flags : Nat) : Point :=
  { p with m_cls := Classification.ofByte flags }

/-! ## Equality (`laspoint.cpp`, lines 176-206) -/

/-- The function `Point::equal`, over exact numbers. -/
def equal (p other : Point) : Bool :=
  let epsilon : ℚ := 0.00001
  let dx : ℚ := p.m_coords.1 - other.m_coords.1
  let dy : ℚ := p.m_coords.2.1 - other.m_coords.2.1
  let dz : ℚ := p.m_coords.2.2 - other.m_coords.2.2
  if ((dx ≤ epsilon) ∧ (dx ≥ -epsilon))
      ∧ ((dy ≤ epsilon) ∧ (dy ≥ -epsilon))
      ∧ ((dz ≤ epsilon) ∧ (dz ≥ -epsilon)) then
    true
  else
    false

end Point

/-! ## Copy and assignment on objects in memory (`laspoint.cpp`, lines 66-103)

The records above are values. To tell a copy of a buffer from a second
reference to it, the same two functions are also embedded over a memory in
which a `Point` object lies at an address, a `std::vector<uint8_t>` member
holds the address of the storage it owns, and the header pointer holds the
address of a header. -/

/-- A `Point` object as it lies in memory: the members of `Point`, with the
header pointer as the address it holds (`none` for the empty pointer) and each
`std::vector<uint8_t>` as the address of its storage. -/
structure PointObject where
  m_coords : ℚ × ℚ × ℚ
  m_gpsTime : ℚ
  m_color : Color
  m_cls : Classification
  m_intensity : Nat
  m_pointSourceId : Nat
  m_flags : Nat
  m_userData : Nat
  m_angleRank : Int
  m_hdr : Option Nat
  m_extra_data : Nat
  m_format_data : Nat
  deriving DecidableEq, Repr

/-- The memory: the `Point` objects and the headers by address, the storage of
the vectors by address (`none` where no storage is allocated), and the first
storage address that has never been allocated. -/
structure Memory where
  points : Nat → PointObject
  headers : Nat → Header
  storage : Nat → Option (List Nat)
  next : Nat

namespace Memory

/-- The bytes of the vector whose storage is at the address `v`. -/
def bytes (mem : Memory) (v : Nat) : List Nat := (mem.storage v).getD []

/-- The record held by the object at the address `a`: its members, the header
its pointer refers to, and the bytes of its two vectors. -/
def read (mem : Memory) (a : Nat) : Point :=
  { m_coords := (mem.points a).m_coords,
    m_gpsTime := (mem.points a).m_gpsTime,
    m_color := (mem.points a).m_color,
    m_cls := (mem.points a).m_cls,
    m_intensity := (mem.points a).m_intensity,
    m_pointSourceId := (mem.points a).m_pointSourceId,
    m_flags := (mem.points a).m_flags,
    m_userData := (mem.points a).m_userData,
    m_angleRank := (mem.points a).m_angleRank,
    m_hdr := (mem.points a).m_hdr.map mem.headers,
    m_extra_data := mem.bytes (mem.points a).m_extra_data,
    m_format_data := mem.bytes (mem.points a).m_format_data }

/-- The construction of a `std::vector<uint8_t>` with the given bytes: storage
is allocated at the first address never allocated, which the vector holds. -/
def vector_new (mem : Memory) (contents : List Nat) : Nat × Memory :=
  (mem.next,
    { mem with storage := Function.update mem.storage mem.next (some contents),
               next := mem.next + 1 })

/-- The destruction of the `std::vector<uint8_t>` holding the storage at the
address `v`: the storage is released. -/
def vector_delete (mem : Memory) (v : Nat) : Memory :=
  { mem with storage := Function.update mem.storage v none }

/-- The object at the address `a` replaced by `obj`. -/
def store (mem : Memory) (a : Nat) (obj : PointObject) : Memory :=
  { mem with points := Function.update mem.points a obj }

/-- The statement `std::vector<uint8_t>(other.m_extra_data).swap(m_extra_data);`
for the objects at the addresses `self` and `other`: a temporary vector is
copy-constructed from the bytes of the buffer of `other`, the temporary and
the member of `self` exchange their storage, and the temporary is destroyed
with the storage the member held. -/
def copy_swap_extra_data (mem : Memory) (self other : Nat) : Memory :=
  let (tmp, mem) := mem.vector_new (mem.bytes (mem.points other).m_extra_data)
  let held : Nat := (mem.points self).m_extra_data
  let mem := mem.store self { mem.points self with m_extra_data := tmp }
  mem.vector_delete held

/-- The statement `std::vector<uint8_t>(other.m_format_data).swap(m_format_data);`
for the objects at the addresses `self` and `other`. -/
def copy_swap_format_data (mem : Memory) (self other : Nat) : Memory :=
  let (tmp, mem) := mem.vector_new (mem.bytes (mem.points other).m_format_data)
  let held : Nat := (mem.points self).m_format_data
  let mem := mem.store self { mem.points self with m_format_data := tmp }
  mem.vector_delete held

/-- The copy constructor `Point::Point(Point const& other)` constructing the
object at the address `self` from the object at the address `other`. The two
vector members are not in the initialiser list, so they are default-constructed
(empty); the body then copies the coordinates and runs the two copy-and-swap
statements. -/
def Point_copy (mem : Memory) (self other : Nat) : Memory :=
  let (extra, mem) := mem.vector_new []
  let (format, mem) := mem.vector_new []
  let mem := mem.store self
    { m_gpsTime := (mem.points other).m_gpsTime,
      m_color := (mem.points other).m_color,
      m_cls := (mem.points other).m_cls,
      m_intensity := (mem.points other).m_intensity,
      m_pointSourceId := (mem.points other).m_pointSourceId,
      m_flags := (mem.points other).m_flags,
      m_userData := (mem.points other).m_userData,
      m_angleRank := (mem.points other).m_angleRank,
      m_hdr := (mem.points other).m_hdr,
      m_coords := (mem.points self).m_coords,
      m_extra_data := extra,
      m_format_data := format }
  let mem := mem.store self { mem.points self with m_coords := (mem.points other).m_coords }
  let mem := mem.copy_swap_extra_data self other
  let mem := mem.copy_swap_format_data self other
  mem

/-- The assignment `Point::operator=(Point const& rhs)` for the objects at the
addresses `self` and `rhs`; the test `&rhs != this` compares the addresses. -/
def operator_assign (mem : Memory) (self rhs : Nat) : Memory :=
  if rhs ≠ self then
    let mem := mem.store self { mem.points self with
      m_coords := ((mem.points rhs).m_coords.1, (mem.points self).m_coords.2.1,
        (mem.points self).m_coords.2.2) }
    let mem := mem.store self { mem.points self with
      m_coords := ((mem.points self).m_coords.1, (mem.points rhs).m_coords.2.1,
        (mem.points self).m_coords.2.2) }
    let mem := mem.store self { mem.points self with
      m_coords := ((mem.points self).m_coords.1, (mem.points self).m_coords.2.1,
        (mem.points rhs).m_coords.2.2) }
    let mem := mem.store self { mem.points self with m_intensity := (mem.points rhs).m_intensity }
    let mem := mem.store self { mem.points self with m_flags := (mem.points rhs).m_flags }
    let mem := mem.store self { mem.points self with m_cls := (mem.points rhs).m_cls }
    let mem := mem.store self { mem.points self with m_angleRank := (mem.points rhs).m_angleRank }
    let mem := mem.store self { mem.points self with m_userData := (mem.points rhs).m_userData }
    let mem := mem.store self { mem.points self with
      m_pointSourceId := (mem.points rhs).m_pointSourceId }
    let mem := mem.store self { mem.points self with m_gpsTime := (mem.points rhs).m_gpsTime }
    let mem := mem.store self { mem.points self with m_color := (mem.points rhs).m_color }
    let mem := mem.copy_swap_extra_data self rhs
    let mem := mem.copy_swap_format_data self rhs
    let mem := mem.store self { mem.points self with m_hdr := (mem.points rhs).m_hdr }
    mem
  else
    mem

/-- A later change to the extra-data buffer of the object at the address `a`:
the bytes in the storage its vector holds are replaced. -/
def write_extra_data (mem : Memory) (a : Nat) (contents : List Nat) : Memory :=
  { mem with storage := Function.update mem.storage (mem.points a).m_extra_data (some contents) }

/-- A later change to the format-data buffer of the object at the address `a`. -/
def write_format_data (mem : Memory) (a : Nat) (contents : List Nat) : Memory :=
  { mem with storage := Function.update mem.storage (mem.points a).m_format_data (some contents) }

end Memory

/-- The object of the sample record: header pointer empty, extra data in the
storage at address 0 and format data in the storage at address 1. -/
def sampleObject : PointObject :=
  { m_coords := (1, 2, 3), m_gpsTime := 5, m_color := ⟨1, 2, 3⟩, m_cls := ⟨2⟩,
    m_intensity := 7, m_pointSourceId := 9, m_flags := 0xA5, m_userData := 4,
    m_angleRank := 10, m_hdr := some 0, m_extra_data := 0, m_format_data := 1 }

/-- A second object, differing from the sample object in every member, with
its buffers in the storage at addresses 2 and 3. -/
def otherObject : PointObject :=
  { m_coords := (4, 5, 6), m_gpsTime := 8, m_color := ⟨7, 7, 7⟩, m_cls := ⟨5⟩,
    m_intensity := 11, m_pointSourceId := 12, m_flags := 0x12, m_userData := 13,
    m_angleRank := -3, m_hdr := none, m_extra_data := 2, m_format_data := 3 }

/-- A memory with the sample object at address 0 and the second object at
every other address, storage allocated at the addresses 0-3, and one header. -/
def sampleMemory : Memory :=
  { points := fun a => if a = 0 then sampleObject else otherObject,
    headers := fun _ => ⟨1, 1, 1, 0, 0, 0⟩,
    storage := fun v =>
      if v = 0 then some [1, 2] else if v = 1 then some [3] else if v = 2 then some [9]
      else if v = 3 then some [] else none,
    next := 4 }

/-- The object at the address `a` owns allocated storage, and none of it is
storage of the object at the address `b`. -/
def Memory.Separate (mem : Memory) (a b : Nat) : Prop :=
  (mem.points a).m_extra_data < mem.next ∧ (mem.points a).m_format_data < mem.next ∧
  (mem.points a).m_extra_data ≠ (mem.points b).m_extra_data ∧
  (mem.points a).m_extra_data ≠ (mem.points b).m_format_data ∧
  (mem.points a).m_format_data ≠ (mem.points b).m_extra_data ∧
  (mem.points a).m_format_data ≠ (mem.points b).m_format_data

instance (mem : Memory) (a b : Nat) : Decidable (mem.Separate a b) := by
  unfold Memory.Separate; infer_instance

/-! ## Arithmetic of bytes -/

/-- Only the low eight bits of a number meet the set bits of a byte. -/
theorem and_byte (f c : Nat) (hc : c < 256) : f &&& c = (f % 256) &&& c := by
  have h255 : f % 256 = f &&& 255 := (Nat.and_pow_two_sub_one_eq_mod f 8).symm
  have hc255 : ∀ c, c < 256 → 255 &&& c = c := by decide!
  rw [h255, Nat.and_assoc, hc255 c hc]

theorem mod_256_mod_8 (n : Nat) : n % 256 % 8 = n % 8 :=
  Nat.mod_mod_of_dvd n (by decide)

theorem mod_256_mod_2 (n : Nat) : n % 256 % 2 = n % 2 :=
  Nat.mod_mod_of_dvd n (by decide)

theorem and_7_eq_mod (n : Nat) : n &&& 7 = n % 8 :=
  Nat.and_pow_two_sub_one_eq_mod n 3

theorem and_1_eq_mod (n : Nat) : n &&& 1 = n % 2 :=
  Nat.and_pow_two_sub_one_eq_mod n 1

/-- A byte is the OR of its four sub-fields, each shifted into place. -/
theorem byte_eq_or_fields : ∀ f, f < 256 →
    f = ((f &&& 0x07) >>> 0) ||| (((f &&& 0x38) >>> 3) <<< 3) |||
      (((f &&& 0x40) >>> 6) <<< 6) ||| (((f &&& 0x80) >>> 7) <<< 7) := by
  decide!

namespace Point

/-! ## The flags byte after each setter -/

/-- The flags byte after `SetReturnNumber`: bits 0-2 hold `num % 8`, the other
bits are those of the byte before. -/
theorem SetReturnNumber_m_flags (p : Point) (num : Nat) :
    (p.SetReturnNumber num).m_flags = ((p.m_flags % 256) &&& 248) ||| (num % 8) := by
  have harg : ∀ n, n < 256 → 7 &&& (n <<< 0) = n % 8 := by decide!
  have hbyte : ∀ f, f < 256 → ∀ v, v < 8 →
      ((f &&& 248) % 256 ||| v) % 256 = (f &&& 248) ||| v := by decide!
  have h := hbyte (p.m_flags % 256) (Nat.mod_lt _ (by decide)) (num % 8) (Nat.mod_lt _ (by decide))
  simp only [SetReturnNumber, static_cast_uint8, complMask]
  rw [show (0x7 <<< 0) % 256 = 7 from rfl, show 255 - 7 = 248 from rfl,
    harg (num % 256) (Nat.mod_lt _ (by decide)), mod_256_mod_8,
    and_byte p.m_flags 248 (by decide)]
  exact h

/-- The flags byte after `SetNumberOfReturns`: bits 3-5 hold `num % 8`. -/
theorem SetNumberOfReturns_m_flags (p : Point) (num : Nat) :
    (p.SetNumberOfReturns num).m_flags = ((p.m_flags % 256) &&& 199) ||| ((num % 8) <<< 3) := by
  have harg : ∀ n, n < 256 → 56 &&& (n <<< 3) = (n % 8) <<< 3 := by decide!
  have hbyte : ∀ f, f < 256 → ∀ v, v < 8 →
      ((f &&& 199) % 256 ||| (v <<< 3)) % 256 = (f &&& 199) ||| (v <<< 3) := by decide!
  have h := hbyte (p.m_flags % 256) (Nat.mod_lt _ (by decide)) (num % 8) (Nat.mod_lt _ (by decide))
  simp only [SetNumberOfReturns, static_cast_uint8, complMask]
  rw [show (0x7 <<< 3) % 256 = 56 from rfl, show 255 - 56 = 199 from rfl,
    harg (num % 256) (Nat.mod_lt _ (by decide)), mod_256_mod_8,
    and_byte p.m_flags 199 (by decide)]
  exact h

/-- The flags byte after `SetScanDirection`: bit 6 holds `dir % 2`. -/
theorem SetScanDirection_m_flags (p : Point) (dir : Nat) :
    (p.SetScanDirection dir).m_flags = ((p.m_flags % 256) &&& 191) ||| ((dir % 2) <<< 6) := by
  have harg : ∀ n, n < 256 → 64 &&& (n <<< 6) = (n % 2) <<< 6 := by decide!
  have hbyte : ∀ f, f < 256 → ∀ v, v < 2 →
      ((f &&& 191) % 256 ||| (v <<< 6)) % 256 = (f &&& 191) ||| (v <<< 6) := by decide!
  have h := hbyte (p.m_flags % 256) (Nat.mod_lt _ (by decide)) (dir % 2) (Nat.mod_lt _ (by decide))
  simp only [SetScanDirection, static_cast_uint8, complMask]
  rw [show (0x1 <<< 6) % 256 = 64 from rfl, show 255 - 64 = 191 from rfl,
    harg (dir % 256) (Nat.mod_lt _ (by decide)), mod_256_mod_2,
    and_byte p.m_flags 191 (by decide)]
  exact h

/-- The flags byte after `SetFlightLineEdge`: bit 7 holds `edge % 2`. -/
theorem SetFlightLineEdge_m_flags (p : Point) (edge : Nat) :
    (p.SetFlightLineEdge edge).m_flags = ((p.m_flags % 256) &&& 127) ||| ((edge % 2) <<< 7) := by
  have harg : ∀ n, n < 256 → 128 &&& (n <<< 7) = (n % 2) <<< 7 := by decide!
  have hbyte : ∀ f, f < 256 → ∀ v, v < 2 →
      ((f &&& 127) % 256 ||| (v <<< 7)) % 256 = (f &&& 127) ||| (v <<< 7) := by decide!
  have h := hbyte (p.m_flags % 256) (Nat.mod_lt _ (by decide)) (edge % 2) (Nat.mod_lt _ (by decide))
  simp only [SetFlightLineEdge, static_cast_uint8, complMask]
  rw [show (0x1 <<< 7) % 256 = 128 from rfl, show 255 - 128 = 127 from rfl,
    harg (edge % 256) (Nat.mod_lt _ (by decide)), mod_256_mod_2,
    and_byte p.m_flags 127 (by decide)]
  exact h

/-- What the four getters return after `SetReturnNumber`. -/
theorem getters_SetReturnNumber (p : Point) (num : Nat) :
    (p.SetReturnNumber num).GetReturnNumber = num % 8 ∧
    (p.SetReturnNumber num).GetNumberOfReturns = p.GetNumberOfReturns ∧
    (p.SetReturnNumber num).GetScanDirection = p.GetScanDirection ∧
    (p.SetReturnNumber num).GetFlightLineEdge = p.GetFlightLineEdge := by
  have hbyte : ∀ f, f < 256 → ∀ v, v < 8 →
      (((f &&& 248) ||| v) &&& 0x07) >>> 0 = v ∧
      (((f &&& 248) ||| v) &&& 0x38) >>> 3 = (f &&& 0x38) >>> 3 ∧
      (((f &&& 248) ||| v) &&& 0x40) >>> 6 = (f &&& 0x40) >>> 6 ∧
      (((f &&& 248) ||| v) &&& 0x80) >>> 7 = (f &&& 0x80) >>> 7 := by decide!
  simp only [GetReturnNumber, GetNumberOfReturns, GetScanDirection, GetFlightLineEdge,
    SetReturnNumber_m_flags]
  rw [and_byte p.m_flags 0x38 (by decide), and_byte p.m_flags 0x40 (by decide),
    and_byte p.m_flags 0x80 (by decide)]
  exact hbyte _ (Nat.mod_lt _ (by decide)) _ (Nat.mod_lt _ (by decide))

/-- What the four getters return after `SetNumberOfReturns`. -/
theorem getters_SetNumberOfReturns (p : Point) (num : Nat) :
    (p.SetNumberOfReturns num).GetReturnNumber = p.GetReturnNumber ∧
    (p.SetNumberOfReturns num).GetNumberOfReturns = num % 8 ∧
    (p.SetNumberOfReturns num).GetScanDirection = p.GetScanDirection ∧
    (p.SetNumberOfReturns num).GetFlightLineEdge = p.GetFlightLineEdge := by
  have hbyte : ∀ f, f < 256 → ∀ v, v < 8 →
      (((f &&& 199) ||| (v <<< 3)) &&& 0x07) >>> 0 = (f &&& 0x07) >>> 0 ∧
      (((f &&& 199) ||| (v <<< 3)) &&& 0x38) >>> 3 = v ∧
      (((f &&& 199) ||| (v <<< 3)) &&& 0x40) >>> 6 = (f &&& 0x40) >>> 6 ∧
      (((f &&& 199) ||| (v <<< 3)) &&& 0x80) >>> 7 = (f &&& 0x80) >>> 7 := by decide!
  simp only [GetReturnNumber, GetNumberOfReturns, GetScanDirection, GetFlightLineEdge,
    SetNumberOfReturns_m_flags]
  rw [and_byte p.m_flags 0x07 (by decide), and_byte p.m_flags 0x40 (by decide),
    and_byte p.m_flags 0x80 (by decide)]
  exact hbyte _ (Nat.mod_lt _ (by decide)) _ (Nat.mod_lt _ (by decide))

/-- What the four getters return after `SetScanDirection`. -/
theorem getters_SetScanDirection (p : Point) (dir : Nat) :
    (p.SetScanDirection dir).GetReturnNumber = p.GetReturnNumber ∧
    (p.SetScanDirection dir).GetNumberOfReturns = p.GetNumberOfReturns ∧
    (p.SetScanDirection dir).GetScanDirection = dir % 2 ∧
    (p.SetScanDirection dir).GetFlightLineEdge = p.GetFlightLineEdge := by
  have hbyte : ∀ f, f < 256 → ∀ v, v < 2 →
      (((f &&& 191) ||| (v <<< 6)) &&& 0x07) >>> 0 = (f &&& 0x07) >>> 0 ∧
      (((f &&& 191) ||| (v <<< 6)) &&& 0x38) >>> 3 = (f &&& 0x38) >>> 3 ∧
      (((f &&& 191) ||| (v <<< 6)) &&& 0x40) >>> 6 = v ∧
      (((f &&& 191) ||| (v <<< 6)) &&& 0x80) >>> 7 = (f &&& 0x80) >>> 7 := by decide!
  simp only [GetReturnNumber, GetNumberOfReturns, GetScanDirection, GetFlightLineEdge,
    SetScanDirection_m_flags]
  rw [and_byte p.m_flags 0x07 (by decide), and_byte p.m_flags 0x38 (by decide),
    and_byte p.m_flags 0x80 (by decide)]
  exact hbyte _ (Nat.mod_lt _ (by decide)) _ (Nat.mod_lt _ (by decide))

/-- What the four getters return after `SetFlightLineEdge`. -/
theorem getters_SetFlightLineEdge (p : Point) (edge : Nat) :
    (p.SetFlightLineEdge edge).GetReturnNumber = p.GetReturnNumber ∧
    (p.SetFlightLineEdge edge).GetNumberOfReturns = p.GetNumberOfReturns ∧
    (p.SetFlightLineEdge edge).GetScanDirection = p.GetScanDirection ∧
    (p.SetFlightLineEdge edge).GetFlightLineEdge = edge % 2 := by
  have hbyte : ∀ f, f < 256 → ∀ v, v < 2 →
      (((f &&& 127) ||| (v <<< 7)) &&& 0x07) >>> 0 = (f &&& 0x07) >>> 0 ∧
      (((f &&& 127) ||| (v <<< 7)) &&& 0x38) >>> 3 = (f &&& 0x38) >>> 3 ∧
      (((f &&& 127) ||| (v <<< 7)) &&& 0x40) >>> 6 = (f &&& 0x40) >>> 6 ∧
      (((f &&& 127) ||| (v <<< 7)) &&& 0x80) >>> 7 = v := by decide!
  simp only [GetReturnNumber, GetNumberOfReturns, GetScanDirection, GetFlightLineEdge,
    SetFlightLineEdge_m_flags]
  rw [and_byte p.m_flags 0x07 (by decide), and_byte p.m_flags 0x38 (by decide),
    and_byte p.m_flags 0x40 (by decide)]
  exact hbyte _ (Nat.mod_lt _ (by decide)) _ (Nat.mod_lt _ (by decide))


/-! ## Round trip, frame and truncation of the flags codec -/

/-- C1: round trip of the flags codec. For every record (whatever its flags
byte) and every value that fits the width of the sub-field (`v ≤ 7` for Return
Number and Number of Returns, `w ≤ 1` for Scan Direction and Flight-Line
Edge), the getter called after the setter returns exactly the value set. -/
theorem flags_round_trip (p : Point) (v w : Nat) (hv : v ≤ 7) (hw : w ≤ 1) :
    (p.SetReturnNumber v).GetReturnNumber = v ∧
    (p.SetNumberOfReturns v).GetNumberOfReturns = v ∧
    (p.SetScanDirection w).GetScanDirection = w ∧
    (p.SetFlightLineEdge w).GetFlightLineEdge = w := by
  have hv8 : v % 8 = v := Nat.mod_eq_of_lt (by omega)
  have hw2 : w % 2 = w := Nat.mod_eq_of_lt (by omega)
  refine ⟨?_, ?_, ?_, ?_⟩
  · rw [(getters_SetReturnNumber p v).1, hv8]
  · rw [(getters_SetNumberOfReturns p v).2.1, hv8]
  · rw [(getters_SetScanDirection p w).2.2.1, hw2]
  · rw [(getters_SetFlightLineEdge p w).2.2.2, hw2]

/-- The round trip at the sample record, with the values 5 and 1. -/
theorem flags_round_trip_witness :
    (5 ≤ 7 ∧ 1 ≤ 1) ∧
    ((samplePoint.SetReturnNumber 5).GetReturnNumber = 5 ∧
     (samplePoint.SetNumberOfReturns 5).GetNumberOfReturns = 5 ∧
     (samplePoint.SetScanDirection 1).GetScanDirection = 1 ∧
     (samplePoint.SetFlightLineEdge 1).GetFlightLineEdge = 1) :=
  ⟨⟨by decide, by decide⟩, flags_round_trip samplePoint 5 1 (by decide) (by decide)⟩

/-- C2: frame property of the flags setters. For every record and every
argument, each setter leaves the bits of the flags byte outside its own
sub-field as they were (bits 3-7 for `SetReturnNumber`, bits 0-2 and 6-7 for
`SetNumberOfReturns`, all but bit 6 for `SetScanDirection`, bits 0-6 for
`SetFlightLineEdge`), leaves the decoded values of the other three sub-fields
as they were, and changes no member of the record but the flags byte. -/
theorem flags_setters_frame (p : Point) (v : Nat) :
    ((p.SetReturnNumber v).m_flags &&& 0xF8 = p.m_flags &&& 0xF8 ∧
      (p.SetReturnNumber v).GetNumberOfReturns = p.GetNumberOfReturns ∧
      (p.SetReturnNumber v).GetScanDirection = p.GetScanDirection ∧
      (p.SetReturnNumber v).GetFlightLineEdge = p.GetFlightLineEdge ∧
      p.SetReturnNumber v = { p with m_flags := (p.SetReturnNumber v).m_flags }) ∧
    ((p.SetNumberOfReturns v).m_flags &&& 0xC7 = p.m_flags &&& 0xC7 ∧
      (p.SetNumberOfReturns v).GetReturnNumber = p.GetReturnNumber ∧
      (p.SetNumberOfReturns v).GetScanDirection = p.GetScanDirection ∧
      (p.SetNumberOfReturns v).GetFlightLineEdge = p.GetFlightLineEdge ∧
      p.SetNumberOfReturns v = { p with m_flags := (p.SetNumberOfReturns v).m_flags }) ∧
    ((p.SetScanDirection v).m_flags &&& 0xBF = p.m_flags &&& 0xBF ∧
      (p.SetScanDirection v).GetReturnNumber = p.GetReturnNumber ∧
      (p.SetScanDirection v).GetNumberOfReturns = p.GetNumberOfReturns ∧
      (p.SetScanDirection v).GetFlightLineEdge = p.GetFlightLineEdge ∧
      p.SetScanDirection v = { p with m_flags := (p.SetScanDirection v).m_flags }) ∧
    ((p.SetFlightLineEdge v).m_flags &&& 0x7F = p.m_flags &&& 0x7F ∧
      (p.SetFlightLineEdge v).GetReturnNumber = p.GetReturnNumber ∧
      (p.SetFlightLineEdge v).GetNumberOfReturns = p.GetNumberOfReturns ∧
      (p.SetFlightLineEdge v).GetScanDirection = p.GetScanDirection ∧
      p.SetFlightLineEdge v = { p with m_flags := (p.SetFlightLineEdge v).m_flags }) := by
  have h1 : ∀ f, f < 256 → ∀ a, a < 8 → ((f &&& 248) ||| a) &&& 0xF8 = f &&& 0xF8 := by
    decide!
  have h2 : ∀ f, f < 256 → ∀ a, a < 8 → ((f &&& 199) ||| (a <<< 3)) &&& 0xC7 = f &&& 0xC7 := by
    decide!
  have h3 : ∀ f, f < 256 → ∀ a, a < 2 → ((f &&& 191) ||| (a <<< 6)) &&& 0xBF = f &&& 0xBF := by
    decide!
  have h4 : ∀ f, f < 256 → ∀ a, a < 2 → ((f &&& 127) ||| (a <<< 7)) &&& 0x7F = f &&& 0x7F := by
    decide!
  have hf : p.m_flags % 256 < 256 := Nat.mod_lt _ (by decide)
  have g1 := getters_SetReturnNumber p v
  have g2 := getters_SetNumberOfReturns p v
  have g3 := getters_SetScanDirection p v
  have g4 := getters_SetFlightLineEdge p v
  refine ⟨⟨?_, g1.2.1, g1.2.2.1, g1.2.2.2, rfl⟩, ⟨?_, g2.1, g2.2.2.1, g2.2.2.2, rfl⟩,
    ⟨?_, g3.1, g3.2.1, g3.2.2.2, rfl⟩, ⟨?_, g4.1, g4.2.1, g4.2.2.1, rfl⟩⟩
  · rw [SetReturnNumber_m_flags, and_byte p.m_flags 0xF8 (by decide)]
    exact h1 _ hf _ (Nat.mod_lt _ (by decide))
  · rw [SetNumberOfReturns_m_flags, and_byte p.m_flags 0xC7 (by decide)]
    exact h2 _ hf _ (Nat.mod_lt _ (by decide))
  · rw [SetScanDirection_m_flags, and_byte p.m_flags 0xBF (by decide)]
    exact h3 _ hf _ (Nat.mod_lt _ (by decide))
  · rw [SetFlightLineEdge_m_flags, and_byte p.m_flags 0x7F (by decide)]
    exact h4 _ hf _ (Nat.mod_lt _ (by decide))

/-- C3: truncation by masking. For every record and every argument `v`
(a value of 256 or more is narrowed to eight bits first), the getter called
after the setter returns `v & 0x07` for Return Number and Number of Returns
and `v & 0x01` for Scan Direction and Flight-Line Edge; the setters are total
functions, so none fails. In particular `SetReturnNumber(9)` decodes to 1. -/
theorem flags_setters_truncate (p : Point) (v : Nat) :
    (p.SetReturnNumber v).GetReturnNumber = v &&& 0x07 ∧
    (p.SetNumberOfReturns v).GetNumberOfReturns = v &&& 0x07 ∧
    (p.SetScanDirection v).GetScanDirection = v &&& 0x01 ∧
    (p.SetFlightLineEdge v).GetFlightLineEdge = v &&& 0x01 ∧
    (p.SetReturnNumber 9).GetReturnNumber = 1 := by
  refine ⟨?_, ?_, ?_, ?_, ?_⟩
  · rw [(getters_SetReturnNumber p v).1, and_7_eq_mod]
  · rw [(getters_SetNumberOfReturns p v).2.1, and_7_eq_mod]
  · rw [(getters_SetScanDirection p v).2.2.1, and_1_eq_mod]
  · rw [(getters_SetFlightLineEdge p v).2.2.2, and_1_eq_mod]
  · rw [(getters_SetReturnNumber p 9).1]

end Point

namespace FlagsCall

/-! ## Sequences of calls -/

theorem runAll_cons (p : Point) (c : FlagsCall) (cs : List FlagsCall) :
    runAll p (c :: cs) = runAll (run p c) cs := rfl

/-- The most recent value over a sequence that starts with the call `c`. -/
theorem mostRecent_cons (arg : FlagsCall → Option Nat) (initial : Nat) (c : FlagsCall)
    (cs : List FlagsCall) :
    mostRecent arg initial (c :: cs) = mostRecent arg ((arg c).getD initial) cs := by
  unfold mostRecent
  cases h : arg c with
  | none => simp [List.filterMap_cons, h]
  | some v =>
    rw [List.filterMap_cons, h]
    cases List.filterMap arg cs with
    | nil => simp
    | cons b l => simp [List.getLast?_eq_getLast (b :: l) (List.cons_ne_nil b l)]

/-- The flags byte is a byte after any call. -/
theorem run_m_flags_lt (p : Point) (c : FlagsCall) : (run p c).m_flags < 256 := by
  cases c <;> exact Nat.mod_lt _ (by decide)

/-- The flags byte stays a byte over a sequence of calls. -/
theorem runAll_m_flags_lt (cs : List FlagsCall) (p : Point) (h : p.m_flags < 256) :
    (runAll p cs).m_flags < 256 := by
  induction cs generalizing p with
  | nil => exact h
  | cons c cs ih => exact ih (run p c) (run_m_flags_lt p c)

/-- Return Number after a sequence of calls: the low three bits of the
argument of the last `SetReturnNumber`, or the value before. -/
theorem GetReturnNumber_runAll (cs : List FlagsCall) (p : Point) :
    (runAll p cs).GetReturnNumber =
      mostRecent (fun c => (argReturnNumber c).map (· % 8)) p.GetReturnNumber cs := by
  induction cs generalizing p with
  | nil => rfl
  | cons c cs ih =>
    rw [runAll_cons, mostRecent_cons, ih]
    congr 1
    cases c with
    | ReturnNumber num => exact (Point.getters_SetReturnNumber p num).1
    | NumberOfReturns num => exact (Point.getters_SetNumberOfReturns p num).1
    | ScanDirection dir => exact (Point.getters_SetScanDirection p dir).1
    | FlightLineEdge edge => exact (Point.getters_SetFlightLineEdge p edge).1

/-- Number of Returns after a sequence of calls. -/
theorem GetNumberOfReturns_runAll (cs : List FlagsCall) (p : Point) :
    (runAll p cs).GetNumberOfReturns =
      mostRecent (fun c => (argNumberOfReturns c).map (· % 8)) p.GetNumberOfReturns cs := by
  induction cs generalizing p with
  | nil => rfl
  | cons c cs ih =>
    rw [runAll_cons, mostRecent_cons, ih]
    congr 1
    cases c with
    | ReturnNumber num => exact (Point.getters_SetReturnNumber p num).2.1
    | NumberOfReturns num => exact (Point.getters_SetNumberOfReturns p num).2.1
    | ScanDirection dir => exact (Point.getters_SetScanDirection p dir).2.1
    | FlightLineEdge edge => exact (Point.getters_SetFlightLineEdge p edge).2.1

/-- Scan Direction after a sequence of calls. -/
theorem GetScanDirection_runAll (cs : List FlagsCall) (p : Point) :
    (runAll p cs).GetScanDirection =
      mostRecent (fun c => (argScanDirection c).map (· % 2)) p.GetScanDirection cs := by
  induction cs generalizing p with
  | nil => rfl
  | cons c cs ih =>
    rw [runAll_cons, mostRecent_cons, ih]
    congr 1
    cases c with
    | ReturnNumber num => exact (Point.getters_SetReturnNumber p num).2.2.1
    | NumberOfReturns num => exact (Point.getters_SetNumberOfReturns p num).2.2.1
    | ScanDirection dir => exact (Point.getters_SetScanDirection p dir).2.2.1
    | FlightLineEdge edge => exact (Point.getters_SetFlightLineEdge p edge).2.2.1

/-- Flight-Line Edge after a sequence of calls. -/
theorem GetFlightLineEdge_runAll (cs : List FlagsCall) (p : Point) :
    (runAll p cs).GetFlightLineEdge =
      mostRecent (fun c => (argFlightLineEdge c).map (· % 2)) p.GetFlightLineEdge cs := by
  induction cs generalizing p with
  | nil => rfl
  | cons c cs ih =>
    rw [runAll_cons, mostRecent_cons, ih]
    congr 1
    cases c with
    | ReturnNumber num => exact (Point.getters_SetReturnNumber p num).2.2.2
    | NumberOfReturns num => exact (Point.getters_SetNumberOfReturns p num).2.2.2
    | ScanDirection dir => exact (Point.getters_SetScanDirection p dir).2.2.2
    | FlightLineEdge edge => exact (Point.getters_SetFlightLineEdge p edge).2.2.2

/-- The most recent value depends on the selected arguments only. -/
theorem mostRecent_congr (f g : FlagsCall → Option Nat) (initial : Nat) (cs : List FlagsCall)
    (h : ∀ c ∈ cs, f c = g c) : mostRecent f initial cs = mostRecent g initial cs := by
  unfold mostRecent
  rw [List.filterMap_congr h]

/-- Over a sequence that is a rearrangement of a sequence selecting the one
value `v`, the most recent value is `v`. -/
theorem mostRecent_of_perm (f : FlagsCall → Option Nat) (initial v : Nat)
    (cs ds : List FlagsCall) (h : cs.Perm ds) (hds : ds.filterMap f = [v]) :
    mostRecent f initial cs = v := by
  have hp : (cs.filterMap f).Perm [v] := hds ▸ h.filterMap f
  unfold mostRecent
  rw [List.perm_singleton.mp hp]
  rfl


/-! ## Layout of the flags byte and the value most recently set -/

/-- C4: byte layout of the packed flags. For every record and every four
arguments `r`, `n`, `d`, `e`, after the four setters have each been called
once, in any order (any rearrangement of the four calls), the flags byte is
`(r & 7) | ((n & 7) << 3) | ((d & 1) << 6) | ((e & 1) << 7)`, whatever the
byte was before. -/
theorem flags_byte_layout (p : Point) (r n d e : Nat) (calls : List FlagsCall)
    (h : calls.Perm [ReturnNumber r, NumberOfReturns n, ScanDirection d, FlightLineEdge e]) :
    (runAll p calls).m_flags =
      (r &&& 7) ||| ((n &&& 7) <<< 3) ||| ((d &&& 1) <<< 6) ||| ((e &&& 1) <<< 7) := by
  have hlt : (runAll p calls).m_flags < 256 := by
    cases calls with
    | nil => exact absurd h.length_eq (by simp)
    | cons c cs => exact runAll_m_flags_lt cs (run p c) (run_m_flags_lt p c)
  have e1 : ((runAll p calls).m_flags &&& 0x07) >>> 0 = r % 8 :=
    (GetReturnNumber_runAll calls p).trans (mostRecent_of_perm _ _ _ _ _ h rfl)
  have e2 : ((runAll p calls).m_flags &&& 0x38) >>> 3 = n % 8 :=
    (GetNumberOfReturns_runAll calls p).trans (mostRecent_of_perm _ _ _ _ _ h rfl)
  have e3 : ((runAll p calls).m_flags &&& 0x40) >>> 6 = d % 2 :=
    (GetScanDirection_runAll calls p).trans (mostRecent_of_perm _ _ _ _ _ h rfl)
  have e4 : ((runAll p calls).m_flags &&& 0x80) >>> 7 = e % 2 :=
    (GetFlightLineEdge_runAll calls p).trans (mostRecent_of_perm _ _ _ _ _ h rfl)
  have key := byte_eq_or_fields _ hlt
  rw [e1, e2, e3, e4] at key
  rw [key, and_7_eq_mod, and_7_eq_mod, and_1_eq_mod, and_1_eq_mod]

/-- The layout at the sample record, the setters called in the order Flight-Line
Edge, Return Number, Scan Direction, Number of Returns, with arguments beyond
the widths of the sub-fields. -/
theorem flags_byte_layout_witness :
    [FlightLineEdge 3, ReturnNumber 300, ScanDirection 2, NumberOfReturns 13].Perm
        [ReturnNumber 300, NumberOfReturns 13, ScanDirection 2, FlightLineEdge 3] ∧
      (runAll samplePoint
          [FlightLineEdge 3, ReturnNumber 300, ScanDirection 2, NumberOfReturns 13]).m_flags =
        (300 &&& 7) ||| ((13 &&& 7) <<< 3) ||| ((2 &&& 1) <<< 6) ||| ((3 &&& 1) <<< 7) :=
  ⟨by decide, flags_byte_layout samplePoint 300 13 2 3 _ (by decide)⟩

/-- C5: most-recently-set invariant. From any record and after any finite
sequence of calls to the four flags setters with arguments within the widths
of their sub-fields, the getter of each sub-field returns the argument of the
last call to the setter of that sub-field, or the value the getter returned
before the sequence when that setter is not called in it. -/
theorem flags_most_recently_set (p : Point) (calls : List FlagsCall)
    (h : ∀ c ∈ calls, c.InWidth) :
    (runAll p calls).GetReturnNumber = mostRecent argReturnNumber p.GetReturnNumber calls ∧
    (runAll p calls).GetNumberOfReturns =
      mostRecent argNumberOfReturns p.GetNumberOfReturns calls ∧
    (runAll p calls).GetScanDirection = mostRecent argScanDirection p.GetScanDirection calls ∧
    (runAll p calls).GetFlightLineEdge =
      mostRecent argFlightLineEdge p.GetFlightLineEdge calls := by
  refine ⟨?_, ?_, ?_, ?_⟩
  · rw [GetReturnNumber_runAll]
    apply mostRecent_congr
    intro c hc
    have hw := h c hc
    cases c <;> simp only [argReturnNumber, Option.map, InWidth] at hw ⊢
    rw [Nat.mod_eq_of_lt (by omega)]
  · rw [GetNumberOfReturns_runAll]
    apply mostRecent_congr
    intro c hc
    have hw := h c hc
    cases c <;> simp only [argNumberOfReturns, Option.map, InWidth] at hw ⊢
    rw [Nat.mod_eq_of_lt (by omega)]
  · rw [GetScanDirection_runAll]
    apply mostRecent_congr
    intro c hc
    have hw := h c hc
    cases c <;> simp only [argScanDirection, Option.map, InWidth] at hw ⊢
    rw [Nat.mod_eq_of_lt (by omega)]
  · rw [GetFlightLineEdge_runAll]
    apply mostRecent_congr
    intro c hc
    have hw := h c hc
    cases c <;> simp only [argFlightLineEdge, Option.map, InWidth] at hw ⊢
    rw [Nat.mod_eq_of_lt (by omega)]

/-- The invariant at the sample record (flags byte `0xA5`: Return Number 5,
Number of Returns 4, Scan Direction 0, Flight-Line Edge 1) over a sequence
that sets Return Number twice and never sets Flight-Line Edge. -/
theorem flags_most_recently_set_witness :
    (∀ c ∈ [ReturnNumber 3, ScanDirection 1, NumberOfReturns 2, ReturnNumber 6], c.InWidth) ∧
    ((runAll samplePoint
        [ReturnNumber 3, ScanDirection 1, NumberOfReturns 2, ReturnNumber 6]).GetReturnNumber =
      mostRecent argReturnNumber samplePoint.GetReturnNumber
        [ReturnNumber 3, ScanDirection 1, NumberOfReturns 2, ReturnNumber 6] ∧
    (runAll samplePoint
        [ReturnNumber 3, ScanDirection 1, NumberOfReturns 2, ReturnNumber 6]).GetNumberOfReturns =
      mostRecent argNumberOfReturns samplePoint.GetNumberOfReturns
        [ReturnNumber 3, ScanDirection 1, NumberOfReturns 2, ReturnNumber 6] ∧
    (runAll samplePoint
        [ReturnNumber 3, ScanDirection 1, NumberOfReturns 2, ReturnNumber 6]).GetScanDirection =
      mostRecent argScanDirection samplePoint.GetScanDirection
        [ReturnNumber 3, ScanDirection 1, NumberOfReturns 2, ReturnNumber 6] ∧
    (runAll samplePoint
        [ReturnNumber 3, ScanDirection 1, NumberOfReturns 2, ReturnNumber 6]).GetFlightLineEdge =
      mostRecent argFlightLineEdge samplePoint.GetFlightLineEdge
        [ReturnNumber 3, ScanDirection 1, NumberOfReturns 2, ReturnNumber 6]) :=
  ⟨by decide, flags_most_recently_set samplePoint _ (by decide)⟩

end FlagsCall

/-! ## Validation -/

/-- An OR of two numbers is zero only when both are. -/
theorem or_eq_zero_iff (a b : Nat) : a ||| b = 0 ↔ a = 0 ∧ b = 0 := by
  constructor
  · intro h
    constructor
    · by_contra ha
      obtain ⟨i, hi⟩ := Nat.ne_zero_implies_bit_true ha
      have := congrArg (fun n => n.testBit i) h
      simp [hi] at this
    · by_contra hb
      obtain ⟨i, hi⟩ := Nat.ne_zero_implies_bit_true hb
      have := congrArg (fun n => n.testBit i) h
      simp [hi] at this
  · rintro ⟨rfl, rfl⟩
    rfl

namespace Point

/-- The bitmask `Validate` accumulates is the OR of the flags of the violated
rules. -/
theorem ValidateFlags_eq_violationMask (E : Enumerators) (p : Point) :
    ValidateFlags E p = violationMask E p := by
  simp only [ValidateFlags, violationMask, ruleReturnNumberViolated,
    ruleNumberOfReturnsViolated, ruleScanDirectionViolated, ruleFlightLineEdgeViolated,
    ruleScanAngleRankViolated, gt_iff_lt, not_le, not_and_or]
  by_cases h1 : 7 < p.GetReturnNumber <;> by_cases h2 : 7 < p.GetNumberOfReturns <;>
    by_cases h3 : 1 < p.GetScanDirection <;> by_cases h4 : 1 < p.GetFlightLineEdge <;>
    by_cases h5 : p.GetScanAngleRank < E.eScanAngleRankMin ∨
      E.eScanAngleRankMax < p.GetScanAngleRank <;>
    simp [h1, h2, h3, h4, h5]

/-- With non-zero rule flags, the bitmask is empty exactly when no rule is
violated. -/
theorem violationMask_eq_zero_iff (E : Enumerators) (hE : E.FlagsNonzero) (p : Point) :
    violationMask E p = 0 ↔
      ¬ ruleReturnNumberViolated p ∧ ¬ ruleNumberOfReturnsViolated p ∧
      ¬ ruleScanDirectionViolated p ∧ ¬ ruleFlightLineEdgeViolated p ∧
      ¬ ruleScanAngleRankViolated E p := by
  obtain ⟨e1, e2, e3, e4, e5⟩ := hE
  simp only [violationMask, or_eq_zero_iff, ite_eq_right_iff]
  constructor
  · rintro ⟨⟨⟨⟨h1, h2⟩, h3⟩, h4⟩, h5⟩
    exact ⟨fun h => by have := h1 h; omega, fun h => by have := h2 h; omega,
      fun h => by have := h3 h; omega, fun h => by have := h4 h; omega,
      fun h => by have := h5 h; omega⟩
  · rintro ⟨h1, h2, h3, h4, h5⟩
    exact ⟨⟨⟨⟨fun h => absurd h h1, fun h => absurd h h2⟩, fun h => absurd h h3⟩,
      fun h => absurd h h4⟩, fun h => absurd h h5⟩

/-- The check `IsValid` is true exactly when no rule is violated. -/
theorem IsValid_eq_true_iff (E : Enumerators) (p : Point) :
    IsValid E p = true ↔
      ¬ ruleReturnNumberViolated p ∧ ¬ ruleNumberOfReturnsViolated p ∧
      ¬ ruleScanDirectionViolated p ∧ ¬ ruleFlightLineEdgeViolated p ∧
      ¬ ruleScanAngleRankViolated E p := by
  simp only [IsValid, ruleReturnNumberViolated,
    ruleNumberOfReturnsViolated, ruleScanDirectionViolated, ruleFlightLineEdgeViolated,
    ruleScanAngleRankViolated, gt_iff_lt, not_le, not_and_or, not_not]
  by_cases h1 : 7 < p.GetReturnNumber <;> by_cases h2 : 7 < p.GetNumberOfReturns <;>
    by_cases h3 : 1 < p.GetScanDirection <;> by_cases h4 : 1 < p.GetFlightLineEdge <;>
    by_cases h5 : p.GetScanAngleRank < E.eScanAngleRankMin ∨
      E.eScanAngleRankMax < p.GetScanAngleRank <;>
    simp [h1, h2, h3, h4, h5]

/-- The check `Validate` returns `true` on an empty bitmask and throws the bitmask
otherwise. -/
theorem Validate_eq (E : Enumerators) (p : Point) :
    Validate E p =
      if violationMask E p = 0 then Except.ok true
      else Except.error ⟨"point data members out of range", violationMask E p⟩ := by
  simp only [Validate, ValidateFlags_eq_violationMask]
  by_cases h : violationMask E p = 0
  · simp [h]
  · simp [h, Nat.pos_of_ne_zero h]


/-- C6: `Validate` reports exactly the violated rules. With non-zero rule
flags, for every record: when none of the five rules is violated `Validate`
returns `true`; when some rule is violated it throws `invalid_point_data`
with the message of the source and a bitmask that is the bitwise OR of the
flags of the violated rules and of nothing else. -/
theorem Validate_reports_violated_rules (E : Enumerators) (hE : E.FlagsNonzero) (p : Point) :
    ((¬ ruleReturnNumberViolated p ∧ ¬ ruleNumberOfReturnsViolated p ∧
        ¬ ruleScanDirectionViolated p ∧ ¬ ruleFlightLineEdgeViolated p ∧
        ¬ ruleScanAngleRankViolated E p) →
      Validate E p = Except.ok true) ∧
    (¬ (¬ ruleReturnNumberViolated p ∧ ¬ ruleNumberOfReturnsViolated p ∧
        ¬ ruleScanDirectionViolated p ∧ ¬ ruleFlightLineEdgeViolated p ∧
        ¬ ruleScanAngleRankViolated E p) →
      Validate E p =
        Except.error ⟨"point data members out of range", violationMask E p⟩) := by
  rw [← violationMask_eq_zero_iff E hE p, Validate_eq]
  constructor
  · intro h
    rw [if_pos h]
  · intro h
    rw [if_neg h]

/-- The report of `Validate` on the sample record with a scan angle rank of
100, outside the sample range: rule 5 alone is violated and the bitmask is
the flag of rule 5. -/
theorem Validate_reports_violated_rules_witness :
    sampleEnumerators.FlagsNonzero ∧
    ruleScanAngleRankViolated sampleEnumerators (samplePoint.SetScanAngleRank 100) ∧
    Validate sampleEnumerators (samplePoint.SetScanAngleRank 100) =
      Except.error ⟨"point data members out of range", 32⟩ :=
  ⟨by decide, by decide,
    ((Validate_reports_violated_rules sampleEnumerators (by decide)
      (samplePoint.SetScanAngleRank 100)).2 (by decide)).trans
      (by rw [show violationMask sampleEnumerators (samplePoint.SetScanAngleRank 100) = 32
        by decide])⟩

/-- C7: the two validity checks agree. With non-zero rule flags, for every
record `IsValid` returns `true` if and only if `Validate` returns `true`
(without throwing), if and only if the bitmask `Validate` has accumulated is
zero, although the two functions test the rules in opposite orders. -/
theorem IsValid_iff_Validate (E : Enumerators) (hE : E.FlagsNonzero) (p : Point) :
    (IsValid E p = true ↔ Validate E p = Except.ok true) ∧
    (IsValid E p = true ↔ ValidateFlags E p = 0) ∧
    (IsValid E p = false ↔
      Validate E p = Except.error ⟨"point data members out of range", ValidateFlags E p⟩) := by
  have hv : IsValid E p = true ↔ violationMask E p = 0 := by
    rw [IsValid_eq_true_iff, violationMask_eq_zero_iff E hE]
  rw [ValidateFlags_eq_violationMask, Validate_eq, hv]
  by_cases h : violationMask E p = 0
  · simp [h, hv.mpr h]
  · have hf : IsValid E p = false := by
      cases hb : IsValid E p with
      | false => rfl
      | true => exact absurd (hv.mp hb) h
    simp [h, hf]

/-- The agreement of the two checks on the sample record, which is valid. -/
theorem IsValid_iff_Validate_witness :
    sampleEnumerators.FlagsNonzero ∧
    (IsValid sampleEnumerators samplePoint = true ∧
      Validate sampleEnumerators samplePoint = Except.ok true ∧
      ValidateFlags sampleEnumerators samplePoint = 0) :=
  ⟨by decide, by decide,
    (IsValid_iff_Validate sampleEnumerators (by decide) samplePoint).1.mp (by decide),
    by decide⟩


/-- When rules 1-4 hold, the bitmask is the flag of rule 5 or zero. -/
theorem violationMask_of_flags_rules (E : Enumerators) (p : Point)
    (h1 : ¬ ruleReturnNumberViolated p) (h2 : ¬ ruleNumberOfReturnsViolated p)
    (h3 : ¬ ruleScanDirectionViolated p) (h4 : ¬ ruleFlightLineEdgeViolated p) :
    violationMask E p = if ruleScanAngleRankViolated E p then E.eScanAngleRank else 0 := by
  simp only [violationMask, if_neg h1, if_neg h2, if_neg h3, if_neg h4, Nat.zero_or]

/-- The check `Validate` returns `true` when no rule is violated, whatever the values of
the rule flags. -/
theorem Validate_ok_of_rules (E : Enumerators) (p : Point)
    (h1 : ¬ ruleReturnNumberViolated p) (h2 : ¬ ruleNumberOfReturnsViolated p)
    (h3 : ¬ ruleScanDirectionViolated p) (h4 : ¬ ruleFlightLineEdgeViolated p)
    (h5 : ¬ ruleScanAngleRankViolated E p) :
    Validate E p = Except.ok true := by
  rw [Validate_eq, violationMask_of_flags_rules E p h1 h2 h3 h4, if_neg h5, if_pos rfl]

/-- C8, as the claim states it, fails. The sample record violates no rule;
after `SetReturnNumber(8)` its Return Number decodes to 0, the record is the
one `SetReturnNumber(0)` gives, and `Validate` returns `true`: it does not
throw, and no bit of the bitmask is set. -/
theorem Validate_after_SetReturnNumber_8_returns_true :
    (¬ ruleNumberOfReturnsViolated samplePoint ∧ ¬ ruleScanDirectionViolated samplePoint ∧
      ¬ ruleFlightLineEdgeViolated samplePoint ∧
      ¬ ruleScanAngleRankViolated sampleEnumerators samplePoint) ∧
    (samplePoint.SetReturnNumber 8).GetReturnNumber = 0 ∧
    samplePoint.SetReturnNumber 8 = samplePoint.SetReturnNumber 0 ∧
    ValidateFlags sampleEnumerators (samplePoint.SetReturnNumber 8) = 0 ∧
    Validate sampleEnumerators (samplePoint.SetReturnNumber 8) = Except.ok true ∧
    Validate sampleEnumerators (samplePoint.SetReturnNumber 8) ≠
      Except.error ⟨"point data members out of range", sampleEnumerators.eReturnNumber⟩ := by
  refine ⟨by decide, by decide, by decide, by decide, ?_, ?_⟩
  · rfl
  · intro h
    have h' : Validate sampleEnumerators (samplePoint.SetReturnNumber 8) = Except.ok true := rfl
    rw [h'] at h
    cases h

/-- C8, amended. For every record in which no other rule is violated (rules
2-5 hold) and whatever the enumerators: after `SetReturnNumber(7)` the Return
Number is 7 and `Validate` returns `true`; `SetReturnNumber(8)` gives the same
record as `SetReturnNumber(0)`, its Return Number decodes to 0 and `Validate`
returns `true`; and after `SetReturnNumber(v)` for any argument `v` the rule of
Return Number holds and `Validate` returns `true`. -/
theorem Validate_ReturnNumber_boundary (E : Enumerators) (p : Point)
    (h2 : ¬ ruleNumberOfReturnsViolated p) (h3 : ¬ ruleScanDirectionViolated p)
    (h4 : ¬ ruleFlightLineEdgeViolated p) (h5 : ¬ ruleScanAngleRankViolated E p) :
    ((p.SetReturnNumber 7).GetReturnNumber = 7 ∧
      Validate E (p.SetReturnNumber 7) = Except.ok true) ∧
    (p.SetReturnNumber 8 = p.SetReturnNumber 0 ∧
      (p.SetReturnNumber 8).GetReturnNumber = 0 ∧
      Validate E (p.SetReturnNumber 8) = Except.ok true) ∧
    (∀ v : Nat, ¬ ruleReturnNumberViolated (p.SetReturnNumber v) ∧
      Validate E (p.SetReturnNumber v) = Except.ok true) := by
  have hall : ∀ v : Nat, ¬ ruleReturnNumberViolated (p.SetReturnNumber v) ∧
      Validate E (p.SetReturnNumber v) = Except.ok true := by
    intro v
    have g := getters_SetReturnNumber p v
    have h1' : ¬ ruleReturnNumberViolated (p.SetReturnNumber v) := by
      unfold ruleReturnNumberViolated
      rw [g.1]
      have : v % 8 < 8 := Nat.mod_lt _ (by decide)
      omega
    have h2' : ¬ ruleNumberOfReturnsViolated (p.SetReturnNumber v) := by
      unfold ruleNumberOfReturnsViolated at h2 ⊢
      rw [g.2.1]; exact h2
    have h3' : ¬ ruleScanDirectionViolated (p.SetReturnNumber v) := by
      unfold ruleScanDirectionViolated at h3 ⊢
      rw [g.2.2.1]; exact h3
    have h4' : ¬ ruleFlightLineEdgeViolated (p.SetReturnNumber v) := by
      unfold ruleFlightLineEdgeViolated at h4 ⊢
      rw [g.2.2.2]; exact h4
    exact ⟨h1', Validate_ok_of_rules E _ h1' h2' h3' h4' h5⟩
  refine ⟨⟨?_, (hall 7).2⟩, ⟨rfl, ?_, (hall 8).2⟩, hall⟩
  · rw [(getters_SetReturnNumber p 7).1]
  · rw [(getters_SetReturnNumber p 8).1]

/-- The amended boundary at the sample record and the sample enumerators. -/
theorem Validate_ReturnNumber_boundary_witness :
    (¬ ruleNumberOfReturnsViolated samplePoint ∧ ¬ ruleScanDirectionViolated samplePoint ∧
      ¬ ruleFlightLineEdgeViolated samplePoint ∧
      ¬ ruleScanAngleRankViolated sampleEnumerators samplePoint) ∧
    Validate sampleEnumerators (samplePoint.SetReturnNumber 7) = Except.ok true ∧
    Validate sampleEnumerators (samplePoint.SetReturnNumber 8) = Except.ok true :=
  ⟨by decide,
    (Validate_ReturnNumber_boundary sampleEnumerators samplePoint (by decide) (by decide)
      (by decide) (by decide)).1.2,
    (Validate_ReturnNumber_boundary sampleEnumerators samplePoint (by decide) (by decide)
      (by decide) (by decide)).2.1.2.2⟩


/-- C9: the bounds of Scan Angle Rank are inclusive. For a record whose flags
sub-fields satisfy rules 1-4, with a non-zero flag of rule 5 and a non-empty
range: after `SetScanAngleRank(r)` the record is valid (for `IsValid` and for
`Validate`) if and only if `eScanAngleRankMin ≤ r ≤ eScanAngleRankMax`; at
either bound `IsValid` and `Validate` return `true`; one unit beyond either
bound `IsValid` returns `false` and `Validate` throws with the bitmask equal
to the flag of rule 5. -/
theorem ScanAngleRank_bounds_inclusive (E : Enumerators) (p : Point) (r : Int)
    (h1 : ¬ ruleReturnNumberViolated p) (h2 : ¬ ruleNumberOfReturnsViolated p)
    (h3 : ¬ ruleScanDirectionViolated p) (h4 : ¬ ruleFlightLineEdgeViolated p)
    (hflag : 0 < E.eScanAngleRank) (hrange : E.eScanAngleRankMin ≤ E.eScanAngleRankMax) :
    (IsValid E (p.SetScanAngleRank r) = true ↔
      E.eScanAngleRankMin ≤ r ∧ r ≤ E.eScanAngleRankMax) ∧
    (Validate E (p.SetScanAngleRank r) = Except.ok true ↔
      E.eScanAngleRankMin ≤ r ∧ r ≤ E.eScanAngleRankMax) ∧
    (IsValid E (p.SetScanAngleRank E.eScanAngleRankMin) = true ∧
      Validate E (p.SetScanAngleRank E.eScanAngleRankMin) = Except.ok true) ∧
    (IsValid E (p.SetScanAngleRank E.eScanAngleRankMax) = true ∧
      Validate E (p.SetScanAngleRank E.eScanAngleRankMax) = Except.ok true) ∧
    (IsValid E (p.SetScanAngleRank (E.eScanAngleRankMin - 1)) = false ∧
      Validate E (p.SetScanAngleRank (E.eScanAngleRankMin - 1)) =
        Except.error ⟨"point data members out of range", E.eScanAngleRank⟩) ∧
    (IsValid E (p.SetScanAngleRank (E.eScanAngleRankMax + 1)) = false ∧
      Validate E (p.SetScanAngleRank (E.eScanAngleRankMax + 1)) =
        Except.error ⟨"point data members out of range", E.eScanAngleRank⟩) := by
  have hrule : ∀ s : Int, ruleScanAngleRankViolated E (p.SetScanAngleRank s) ↔
      ¬ (E.eScanAngleRankMin ≤ s ∧ s ≤ E.eScanAngleRankMax) := fun s => Iff.rfl
  have hvalid : ∀ s : Int, IsValid E (p.SetScanAngleRank s) = true ↔
      E.eScanAngleRankMin ≤ s ∧ s ≤ E.eScanAngleRankMax := by
    intro s
    rw [IsValid_eq_true_iff]
    constructor
    · intro h
      exact not_not.mp ((hrule s).not.mp h.2.2.2.2)
    · intro h
      exact ⟨h1, h2, h3, h4, (hrule s).not.mpr (not_not.mpr h)⟩
  have hmask : ∀ s : Int, violationMask E (p.SetScanAngleRank s) =
      if ruleScanAngleRankViolated E (p.SetScanAngleRank s) then E.eScanAngleRank else 0 :=
    fun s => violationMask_of_flags_rules E (p.SetScanAngleRank s) h1 h2 h3 h4
  have hin : ∀ s : Int, E.eScanAngleRankMin ≤ s ∧ s ≤ E.eScanAngleRankMax →
      Validate E (p.SetScanAngleRank s) = Except.ok true := by
    intro s hs
    rw [Validate_eq, hmask s, if_neg ((hrule s).not.mpr (not_not.mpr hs)), if_pos rfl]
  have hout : ∀ s : Int, ¬ (E.eScanAngleRankMin ≤ s ∧ s ≤ E.eScanAngleRankMax) →
      Validate E (p.SetScanAngleRank s) =
        Except.error ⟨"point data members out of range", E.eScanAngleRank⟩ := by
    intro s hs
    rw [Validate_eq, hmask s, if_pos ((hrule s).mpr hs), if_neg (by omega)]
  have hfalse : ∀ s : Int, ¬ (E.eScanAngleRankMin ≤ s ∧ s ≤ E.eScanAngleRankMax) →
      IsValid E (p.SetScanAngleRank s) = false := by
    intro s hs
    cases hb : IsValid E (p.SetScanAngleRank s) with
    | false => rfl
    | true => exact absurd ((hvalid s).mp hb) hs
  refine ⟨hvalid r, ⟨?_, hin r⟩, ⟨(hvalid _).mpr ⟨le_refl _, hrange⟩, hin _ ⟨le_refl _, hrange⟩⟩,
    ⟨(hvalid _).mpr ⟨hrange, le_refl _⟩, hin _ ⟨hrange, le_refl _⟩⟩,
    ⟨hfalse _ (by omega), hout _ (by omega)⟩, ⟨hfalse _ (by omega), hout _ (by omega)⟩⟩
  intro hok
  by_contra hs
  rw [hout r hs] at hok
  cases hok

/-- The bounds at the sample record with the sample range `[-90, 90]`: a rank
of 90 is valid, a rank of 91 is not. -/
theorem ScanAngleRank_bounds_inclusive_witness :
    (¬ ruleReturnNumberViolated samplePoint ∧ ¬ ruleNumberOfReturnsViolated samplePoint ∧
      ¬ ruleScanDirectionViolated samplePoint ∧ ¬ ruleFlightLineEdgeViolated samplePoint ∧
      0 < sampleEnumerators.eScanAngleRank ∧
      sampleEnumerators.eScanAngleRankMin ≤ sampleEnumerators.eScanAngleRankMax) ∧
    (IsValid sampleEnumerators (samplePoint.SetScanAngleRank 90) = true ∧
      Validate sampleEnumerators (samplePoint.SetScanAngleRank 90) = Except.ok true) ∧
    (IsValid sampleEnumerators (samplePoint.SetScanAngleRank (90 + 1)) = false ∧
      Validate sampleEnumerators (samplePoint.SetScanAngleRank (90 + 1)) =
        Except.error ⟨"point data members out of range", 32⟩) :=
  ⟨by decide,
    (ScanAngleRank_bounds_inclusive sampleEnumerators samplePoint 0 (by decide) (by decide)
      (by decide) (by decide) (by decide) (by decide)).2.2.2.1,
    (ScanAngleRank_bounds_inclusive sampleEnumerators samplePoint 0 (by decide) (by decide)
      (by decide) (by decide) (by decide) (by decide)).2.2.2.2.2⟩

/-! ## Coordinates -/

/-- C10: the coordinate transform. For every header and every input
`(x, y, z)`, `SetCoordinates(header, x, y, z)` stores
`(x * scaleX + offsetX, y * scaleY + offsetY, z * scaleZ + offsetZ)`, each
axis from its own scale and offset, in exact arithmetic with no rounding, and
changes no member of the record but the coordinates. With scale
`(0.01, 0.01, 0.01)`, offset `(100, 200, 300)` and input `(1, 2, 3)` the
stored coordinates are `(100.01, 200.02, 300.03)`. -/
theorem SetCoordinates_transform (p : Point) (header : Header) (x y z : ℚ) :
    (p.SetCoordinates header x y z).m_coords =
      (x * header.GetScaleX + header.GetOffsetX,
        y * header.GetScaleY + header.GetOffsetY,
        z * header.GetScaleZ + header.GetOffsetZ) ∧
    p.SetCoordinates header x y z =
      { p with m_coords := (p.SetCoordinates header x y z).m_coords } ∧
    (p.SetCoordinates ⟨0.01, 0.01, 0.01, 100.0, 200.0, 300.0⟩ 1.0 2.0 3.0).m_coords =
      (100.01, 200.02, 300.03) := by
  refine ⟨rfl, rfl, ?_⟩
  simp only [SetCoordinates, SetCoordinates3, Header.GetScaleX, Header.GetScaleY,
    Header.GetScaleZ, Header.GetOffsetX, Header.GetOffsetY, Header.GetOffsetZ]
  norm_num


/-! ## Equality -/

/-- The test of `equal`, unfolded: every coordinate difference is within the
tolerance, on both sides. -/
theorem equal_eq_true_iff (a b : Point) :
    a.equal b = true ↔
      (-(1 / 100000 : ℚ) ≤ a.m_coords.1 - b.m_coords.1 ∧
        a.m_coords.1 - b.m_coords.1 ≤ 1 / 100000) ∧
      (-(1 / 100000 : ℚ) ≤ a.m_coords.2.1 - b.m_coords.2.1 ∧
        a.m_coords.2.1 - b.m_coords.2.1 ≤ 1 / 100000) ∧
      (-(1 / 100000 : ℚ) ≤ a.m_coords.2.2 - b.m_coords.2.2 ∧
        a.m_coords.2.2 - b.m_coords.2.2 ≤ 1 / 100000) := by
  have he : (0.00001 : ℚ) = 1 / 100000 := by norm_num
  simp only [equal, he, ge_iff_le, ite_eq_left_iff, Bool.false_eq_true, imp_false, not_not]
  constructor
  · rintro ⟨⟨h1, h2⟩, ⟨h3, h4⟩, h5, h6⟩
    exact ⟨⟨h2, h1⟩, ⟨h4, h3⟩, h6, h5⟩
  · rintro ⟨⟨h1, h2⟩, ⟨h3, h4⟩, h5, h6⟩
    exact ⟨⟨h2, h1⟩, ⟨h4, h3⟩, h6, h5⟩

/-- C11: tolerance equality. For every pair of records, `equal` is true if
and only if each of the three coordinate differences lies in the closed
interval `[-0.00001, 0.00001]`; a record and the record whose coordinates are
0.000001 further on every axis compare equal, in both directions, and a record
and the record whose coordinates are 0.0001 further on every axis compare
unequal, in both directions (exact arithmetic). -/
theorem equal_tolerance (a b : Point) :
    (a.equal b = true ↔
      (-(0.00001 : ℚ) ≤ a.m_coords.1 - b.m_coords.1 ∧
        a.m_coords.1 - b.m_coords.1 ≤ 0.00001) ∧
      (-(0.00001 : ℚ) ≤ a.m_coords.2.1 - b.m_coords.2.1 ∧
        a.m_coords.2.1 - b.m_coords.2.1 ≤ 0.00001) ∧
      (-(0.00001 : ℚ) ≤ a.m_coords.2.2 - b.m_coords.2.2 ∧
        a.m_coords.2.2 - b.m_coords.2.2 ≤ 0.00001)) ∧
    (a.equal { b with m_coords := (a.m_coords.1 + 0.000001, a.m_coords.2.1 + 0.000001,
        a.m_coords.2.2 + 0.000001) } = true ∧
      Point.equal { b with m_coords := (a.m_coords.1 + 0.000001, a.m_coords.2.1 + 0.000001,
        a.m_coords.2.2 + 0.000001) } a = true) ∧
    (a.equal { b with m_coords := (a.m_coords.1 + 0.0001, a.m_coords.2.1 + 0.0001,
        a.m_coords.2.2 + 0.0001) } = false ∧
      Point.equal { b with m_coords := (a.m_coords.1 + 0.0001, a.m_coords.2.1 + 0.0001,
        a.m_coords.2.2 + 0.0001) } a = false) := by
  have he : (0.00001 : ℚ) = 1 / 100000 := by norm_num
  refine ⟨?_, ⟨?_, ?_⟩, ⟨?_, ?_⟩⟩
  · rw [he]; exact equal_eq_true_iff a b
  · rw [equal_eq_true_iff]; norm_num
  · rw [equal_eq_true_iff]; norm_num
  · rw [← Bool.not_eq_true, equal_eq_true_iff]; norm_num
  · rw [← Bool.not_eq_true, equal_eq_true_iff]; norm_num

/-- C12: equality ignores every member but the coordinates. When `a` and `a'`
have the same three coordinates and `b` and `b'` have the same three
coordinates, `a.equal(b)` and `a'.equal(b')` are the same, whatever the other
members of the four records; and two records with the same coordinates compare
equal, whatever their classification, intensity, flags or other members. -/
theorem equal_ignores_other_members (a a' b b' : Point)
    (ha : a.m_coords = a'.m_coords) (hb : b.m_coords = b'.m_coords) :
    a.equal b = a'.equal b' ∧ a.equal a' = true := by
  constructor
  · simp only [equal, ha, hb]
  · rw [equal_eq_true_iff, ha]; norm_num

/-- The sample record and a record with the same coordinates and another
classification, intensity, flags byte, user data, rank, source id, time,
colour, buffers and header. -/
theorem equal_ignores_other_members_witness :
    (samplePoint.m_coords =
        ({ m_coords := (1, 2, 3), m_gpsTime := 77, m_color := ⟨9, 9, 9⟩, m_cls := ⟨31⟩,
           m_intensity := 1000, m_pointSourceId := 12, m_flags := 0x5A, m_userData := 200,
           m_angleRank := -45, m_hdr := some ⟨1, 1, 1, 0, 0, 0⟩, m_extra_data := [],
           m_format_data := [7, 7] } : Point).m_coords) ∧
    samplePoint.equal
        { m_coords := (1, 2, 3), m_gpsTime := 77, m_color := ⟨9, 9, 9⟩, m_cls := ⟨31⟩,
          m_intensity := 1000, m_pointSourceId := 12, m_flags := 0x5A, m_userData := 200,
          m_angleRank := -45, m_hdr := some ⟨1, 1, 1, 0, 0, 0⟩, m_extra_data := [],
          m_format_data := [7, 7] } = true :=
  ⟨rfl, (equal_ignores_other_members samplePoint _ samplePoint samplePoint rfl rfl).2⟩

/-- C17: `equal` is reflexive and symmetric. For every record `a`,
`a.equal(a)` is true, and for every pair of records `a.equal(b)` and
`b.equal(a)` are the same (coordinates are exact numbers). -/
theorem equal_refl_symm (a b : Point) :
    a.equal a = true ∧ a.equal b = b.equal a := by
  constructor
  · rw [equal_eq_true_iff]; norm_num
  · rw [Bool.eq_iff_iff, equal_eq_true_iff, equal_eq_true_iff]
    constructor <;>
    · rintro ⟨⟨h1, h2⟩, ⟨h3, h4⟩, h5, h6⟩
      refine ⟨⟨?_, ?_⟩, ⟨?_, ?_⟩, ?_, ?_⟩ <;> linarith

/-- C18: `equal` is not transitive. The records with x-coordinates 0, 0.00001
and 0.00002 and the same y and z are such that the first equals the second,
the second equals the third, and the first does not equal the third. -/
theorem equal_not_transitive :
    (∃ a b c : Point, a.equal b = true ∧ b.equal c = true ∧ a.equal c = false ∧
      a = { samplePoint with m_coords := (0, 2, 3) } ∧
      b = { samplePoint with m_coords := (0.00001, 2, 3) } ∧
      c = { samplePoint with m_coords := (0.00002, 2, 3) }) ∧
    ¬ (∀ a b c : Point, a.equal b = true → b.equal c = true → a.equal c = true) := by
  have h1 : Point.equal { samplePoint with m_coords := (0, 2, 3) }
      { samplePoint with m_coords := (0.00001, 2, 3) } = true := by
    rw [equal_eq_true_iff]; norm_num
  have h2 : Point.equal { samplePoint with m_coords := (0.00001, 2, 3) }
      { samplePoint with m_coords := (0.00002, 2, 3) } = true := by
    rw [equal_eq_true_iff]; norm_num
  have h3 : Point.equal { samplePoint with m_coords := (0, 2, 3) }
      { samplePoint with m_coords := (0.00002, 2, 3) } = false := by
    rw [← Bool.not_eq_true, equal_eq_true_iff]; norm_num
  refine ⟨⟨_, _, _, h1, h2, h3, rfl, rfl, rfl⟩, ?_⟩
  intro h
  have h4 := h _ _ _ h1 h2
  rw [h3] at h4
  cases h4


/-! ## Construction and classification -/

/-- C14: classification set and get. For every record and every code `c`, the
three overloads of `SetClassification` given the code `c` (as a classification
value, as a bit pattern, as a byte) leave the same record; after any of them
`GetClassification` returns the value just set, whatever the classification
was before; and no member of the record changes but the classification. -/
theorem classification_set_get (p : Point) (c : Nat) (cls : Classification) :
    (p.SetClassification ⟨c⟩ = p.SetClassification_bitset c ∧
      p.SetClassification_bitset c = p.SetClassification_uint8 c) ∧
    ((p.SetClassification cls).GetClassification = cls ∧
      (p.SetClassification_bitset c).GetClassification = ⟨c⟩ ∧
      (p.SetClassification_uint8 c).GetClassification = ⟨c⟩) ∧
    (p.SetClassification cls = { p with m_cls := cls } ∧
      p.SetClassification_bitset c = { p with m_cls := ⟨c⟩ } ∧
      p.SetClassification_uint8 c = { p with m_cls := ⟨c⟩ }) := by
  refine ⟨⟨rfl, rfl⟩, ⟨rfl, rfl, rfl⟩, rfl, rfl, rfl⟩

/-- C15: default construction. A default-constructed record has its three
coordinates equal to 0, empty extra-data and format-data buffers, no header,
and zero GPS time, intensity, point source id, flags byte, user data and scan
angle rank; its four flags sub-fields decode to 0. -/
theorem default_construction (color : Color) (cls : Classification) :
    (Point_default color cls).m_coords = (0, 0, 0) ∧
    (Point_default color cls).m_extra_data = [] ∧
    (Point_default color cls).m_format_data = [] ∧
    (Point_default color cls).m_hdr = none ∧
    (Point_default color cls).m_gpsTime = 0 ∧
    (Point_default color cls).m_intensity = 0 ∧
    (Point_default color cls).m_pointSourceId = 0 ∧
    (Point_default color cls).m_flags = 0 ∧
    (Point_default color cls).m_userData = 0 ∧
    (Point_default color cls).m_angleRank = 0 ∧
    (Point_default color cls).GetReturnNumber = 0 ∧
    (Point_default color cls).GetNumberOfReturns = 0 ∧
    (Point_default color cls).GetScanDirection = 0 ∧
    (Point_default color cls).GetFlightLineEdge = 0 := by
  refine ⟨rfl, rfl, rfl, rfl, rfl, rfl, rfl, rfl, rfl, rfl, ?_, ?_, ?_, ?_⟩
  · show (0 &&& 0x07) >>> 0 = 0
    decide
  · show (0 &&& 0x38) >>> 3 = 0
    decide
  · show (0 &&& 0x40) >>> 6 = 0
    decide
  · show (0 &&& 0x80) >>> 7 = 0
    decide

end Point

/-! ## Validity of every flags byte -/

namespace Point

/-- The decoded sub-fields are within their widths, whatever the flags byte. -/
theorem getters_le (p : Point) :
    p.GetReturnNumber ≤ 7 ∧ p.GetNumberOfReturns ≤ 7 ∧
    p.GetScanDirection ≤ 1 ∧ p.GetFlightLineEdge ≤ 1 := by
  have hbyte : ∀ f, f < 256 →
      (f &&& 0x07) >>> 0 ≤ 7 ∧ (f &&& 0x38) >>> 3 ≤ 7 ∧
      (f &&& 0x40) >>> 6 ≤ 1 ∧ (f &&& 0x80) >>> 7 ≤ 1 := by decide!
  simp only [GetReturnNumber, GetNumberOfReturns, GetScanDirection, GetFlightLineEdge]
  rw [and_byte p.m_flags 0x07 (by decide), and_byte p.m_flags 0x38 (by decide),
    and_byte p.m_flags 0x40 (by decide), and_byte p.m_flags 0x80 (by decide)]
  exact hbyte _ (Nat.mod_lt _ (by decide))

/-- Rules 1-4 hold for every record. -/
theorem flags_rules_hold (p : Point) :
    ¬ ruleReturnNumberViolated p ∧ ¬ ruleNumberOfReturnsViolated p ∧
    ¬ ruleScanDirectionViolated p ∧ ¬ ruleFlightLineEdgeViolated p := by
  obtain ⟨h1, h2, h3, h4⟩ := getters_le p
  exact ⟨not_not.mpr h1, not_not.mpr h2, not_not.mpr h3, not_not.mpr h4⟩

/-- C16: the four flags rules can never fail. For every record, whatever its
flags byte, the decoded Return Number and Number of Returns are at most 7 and
the decoded Scan Direction and Flight-Line Edge are at most 1; so `IsValid` is
true if and only if the scan angle rank lies within
`[eScanAngleRankMin, eScanAngleRankMax]`, the bitmask `Validate` accumulates
is zero within the range and the flag of rule 5 outside it, and `Validate`
either returns `true` or throws with the bitmask equal to the flag of rule 5,
never with the flag of one of the rules 1-4 in it. -/
theorem flags_rules_never_fail (E : Enumerators) (p : Point) :
    (p.GetReturnNumber ≤ 7 ∧ p.GetNumberOfReturns ≤ 7 ∧
      p.GetScanDirection ≤ 1 ∧ p.GetFlightLineEdge ≤ 1) ∧
    (IsValid E p = true ↔
      E.eScanAngleRankMin ≤ p.GetScanAngleRank ∧ p.GetScanAngleRank ≤ E.eScanAngleRankMax) ∧
    (ValidateFlags E p =
      if E.eScanAngleRankMin ≤ p.GetScanAngleRank ∧ p.GetScanAngleRank ≤ E.eScanAngleRankMax
      then 0 else E.eScanAngleRank) ∧
    (Validate E p = Except.ok true ∨
      Validate E p = Except.error ⟨"point data members out of range", E.eScanAngleRank⟩) := by
  obtain ⟨h1, h2, h3, h4⟩ := flags_rules_hold p
  have hmask := violationMask_of_flags_rules E p h1 h2 h3 h4
  refine ⟨getters_le p, ?_, ?_, ?_⟩
  · rw [IsValid_eq_true_iff]
    constructor
    · intro h
      exact not_not.mp h.2.2.2.2
    · intro h
      exact ⟨h1, h2, h3, h4, not_not.mpr h⟩
  · rw [ValidateFlags_eq_violationMask, hmask]
    unfold ruleScanAngleRankViolated
    by_cases h : E.eScanAngleRankMin ≤ p.GetScanAngleRank ∧
        p.GetScanAngleRank ≤ E.eScanAngleRankMax
    · rw [if_neg (not_not.mpr h), if_pos h]
    · rw [if_pos h, if_neg h]
  · rw [Validate_eq, hmask]
    by_cases h : ruleScanAngleRankViolated E p
    · rw [if_pos h]
      by_cases h0 : E.eScanAngleRank = 0
      · left; rw [if_pos h0]
      · right; rw [if_neg h0]
    · left; rw [if_neg h, if_pos rfl]

end Point

namespace FlagsCall

/-- A call to a flags setter leaves the scan angle rank as it was. -/
theorem runAll_m_angleRank (cs : List FlagsCall) (p : Point) :
    (runAll p cs).m_angleRank = p.m_angleRank := by
  induction cs generalizing p with
  | nil => rfl
  | cons c cs ih =>
    rw [runAll_cons, ih]
    cases c <;> rfl

/-- C19: a default-constructed record is valid and stays valid under the
flags setters. When `eScanAngleRankMin ≤ 0 ≤ eScanAngleRankMax`, for the
default-constructed record and for every record obtained from it by a finite
sequence of calls to the four flags setters with any arguments, `IsValid`
returns `true` and `Validate` returns `true` without throwing. -/
theorem default_valid_under_flags_setters (E : Enumerators)
    (hmin : E.eScanAngleRankMin ≤ 0) (hmax : 0 ≤ E.eScanAngleRankMax)
    (color : Color) (cls : Classification) (calls : List FlagsCall) :
    (Point.IsValid E (Point.Point_default color cls) = true ∧
      Point.Validate E (Point.Point_default color cls) = Except.ok true) ∧
    (Point.IsValid E (runAll (Point.Point_default color cls) calls) = true ∧
      Point.Validate E (runAll (Point.Point_default color cls) calls) = Except.ok true) := by
  have key : ∀ cs : List FlagsCall,
      Point.IsValid E (runAll (Point.Point_default color cls) cs) = true ∧
      Point.Validate E (runAll (Point.Point_default color cls) cs) = Except.ok true := by
    intro cs
    obtain ⟨h1, h2, h3, h4⟩ := Point.flags_rules_hold (runAll (Point.Point_default color cls) cs)
    have hrank : (runAll (Point.Point_default color cls) cs).GetScanAngleRank = 0 :=
      runAll_m_angleRank cs _
    have h5 : ¬ ruleScanAngleRankViolated E (runAll (Point.Point_default color cls) cs) := by
      unfold ruleScanAngleRankViolated
      rw [hrank]
      exact not_not.mpr ⟨hmin, hmax⟩
    exact ⟨(Point.IsValid_eq_true_iff E _).mpr ⟨h1, h2, h3, h4, h5⟩,
      Point.Validate_ok_of_rules E _ h1 h2 h3 h4 h5⟩
  exact ⟨key [], key calls⟩

/-- The validity of the default-constructed record after four calls with
arguments beyond the widths of the sub-fields, for the sample range. -/
theorem default_valid_under_flags_setters_witness :
    (sampleEnumerators.eScanAngleRankMin ≤ 0 ∧ 0 ≤ sampleEnumerators.eScanAngleRankMax) ∧
    (Point.IsValid sampleEnumerators
        (runAll (Point.Point_default ⟨0, 0, 0⟩ ⟨0⟩)
          [ReturnNumber 8, NumberOfReturns 300, ScanDirection 2, FlightLineEdge 65535]) = true ∧
      Point.Validate sampleEnumerators
        (runAll (Point.Point_default ⟨0, 0, 0⟩ ⟨0⟩)
          [ReturnNumber 8, NumberOfReturns 300, ScanDirection 2, FlightLineEdge 65535]) =
        Except.ok true) :=
  ⟨by decide,
    (default_valid_under_flags_setters sampleEnumerators (by decide) (by decide) ⟨0, 0, 0⟩ ⟨0⟩
      _).2⟩

end FlagsCall
/-! ## Copy and assignment -/

namespace Memory

/-- C13: copy and assignment copy the whole record and keep source and copy
independent. In a memory where the object `q` lies at the address `b`, owning
allocated storage, and `a` is another address: after the copy constructor has
constructed the object at `a` from `q`, and after the assignment `p = q` to an
object `p` at `a` that owns storage of its own, the record read at `a` equals
the record of `q` in every member (coordinates, intensity, flags,
classification, user data, scan angle rank, point source id, GPS time, colour,
extra-data bytes, format-data bytes, header); the object `q`, its record and the
headers are unchanged; the header pointer of the copy holds the same address
as that of `q`, while its two vectors hold storage that is not the storage of
`q`; a later change to the extra-data or the format-data buffer of the copy
changes that buffer of the copy and leaves the record of `q` unchanged, and a
later change to a buffer of `q` leaves the record of the copy unchanged.
Self-assignment leaves the memory unchanged. On records as values, the copy
constructor and the assignment return a record equal to `q`. -/
theorem copy_and_assignment (mem : Memory) (a b : Nat) (p q : Point) (extra format : List Nat)
    (hab : a ≠ b)
    (he : (mem.points b).m_extra_data < mem.next)
    (hf : (mem.points b).m_format_data < mem.next) :
    ((mem.Point_copy a b).read a = mem.read b ∧
      (mem.Point_copy a b).read b = mem.read b ∧
      (mem.Point_copy a b).points b = mem.points b ∧
      (mem.Point_copy a b).headers = mem.headers ∧
      ((mem.Point_copy a b).points a).m_hdr = (mem.points b).m_hdr ∧
      (((mem.Point_copy a b).points a).m_extra_data ≠ (mem.points b).m_extra_data ∧
        ((mem.Point_copy a b).points a).m_extra_data ≠ (mem.points b).m_format_data ∧
        ((mem.Point_copy a b).points a).m_format_data ≠ (mem.points b).m_extra_data ∧
        ((mem.Point_copy a b).points a).m_format_data ≠ (mem.points b).m_format_data) ∧
      (((mem.Point_copy a b).write_extra_data a extra).read b = mem.read b ∧
        ((mem.Point_copy a b).write_format_data a format).read b = mem.read b) ∧
      (((mem.Point_copy a b).write_extra_data a extra).read a =
          { mem.read b with m_extra_data := extra } ∧
        ((mem.Point_copy a b).write_format_data a format).read a =
          { mem.read b with m_format_data := format }) ∧
      (((mem.Point_copy a b).write_extra_data b extra).read a = mem.read b ∧
        ((mem.Point_copy a b).write_format_data b format).read a = mem.read b)) ∧
    (mem.Separate a b →
      (mem.operator_assign a b).read a = mem.read b ∧
      (mem.operator_assign a b).read b = mem.read b ∧
      (mem.operator_assign a b).points b = mem.points b ∧
      (mem.operator_assign a b).headers = mem.headers ∧
      ((mem.operator_assign a b).points a).m_hdr = (mem.points b).m_hdr ∧
      (((mem.operator_assign a b).points a).m_extra_data ≠ (mem.points b).m_extra_data ∧
        ((mem.operator_assign a b).points a).m_extra_data ≠ (mem.points b).m_format_data ∧
        ((mem.operator_assign a b).points a).m_format_data ≠ (mem.points b).m_extra_data ∧
        ((mem.operator_assign a b).points a).m_format_data ≠ (mem.points b).m_format_data) ∧
      (((mem.operator_assign a b).write_extra_data a extra).read b = mem.read b ∧
        ((mem.operator_assign a b).write_format_data a format).read b = mem.read b) ∧
      (((mem.operator_assign a b).write_extra_data a extra).read a =
          { mem.read b with m_extra_data := extra } ∧
        ((mem.operator_assign a b).write_format_data a format).read a =
          { mem.read b with m_format_data := format }) ∧
      (((mem.operator_assign a b).write_extra_data b extra).read a = mem.read b ∧
        ((mem.operator_assign a b).write_format_data b format).read a = mem.read b)) ∧
    (mem.operator_assign b b).points = mem.points ∧
    (mem.operator_assign b b).storage = mem.storage ∧
    (mem.operator_assign b b).headers = mem.headers ∧
    (mem.operator_assign b b).read b = mem.read b ∧
    (Point.Point_copy q = q ∧ Point.operator_assign p q false = q ∧
      Point.operator_assign p p true = p ∧ Point.operator_assign p p false = p) := by
  have h1 : mem.next ≠ (mem.points b).m_extra_data := by omega
  have h2 : mem.next ≠ (mem.points b).m_format_data := by omega
  have h3 : mem.next + 1 ≠ (mem.points b).m_extra_data := by omega
  have h4 : mem.next + 1 ≠ (mem.points b).m_format_data := by omega
  have h5 : mem.next + 1 + 1 ≠ (mem.points b).m_extra_data := by omega
  have h6 : mem.next + 1 + 1 ≠ (mem.points b).m_format_data := by omega
  have h7 : mem.next + 1 + 1 + 1 ≠ (mem.points b).m_extra_data := by omega
  have h8 : mem.next + 1 + 1 + 1 ≠ (mem.points b).m_format_data := by omega
  have k1 : mem.next + 1 + 1 ≠ mem.next := by omega
  have k2 : mem.next + 1 + 1 + 1 ≠ mem.next := by omega
  have k3 : mem.next + 1 + 1 + 1 ≠ mem.next + 1 := by omega
  refine ⟨⟨?_, ?_, ?_, ?_, ?_, ⟨?_, ?_, ?_, ?_⟩, ⟨?_, ?_⟩, ⟨?_, ?_⟩, ⟨?_, ?_⟩⟩, ?_, ?_, ?_, ?_, ?_,
    ⟨rfl, rfl, rfl, rfl⟩⟩
  case refine_16 =>
    rintro ⟨s1, s2, s3, s4, s5, s6⟩
    have j1 : (mem.points a).m_extra_data ≠ mem.next := by omega
    have j2 : (mem.points a).m_format_data ≠ mem.next := by omega
    have j3 : (mem.points a).m_format_data ≠ mem.next + 1 := by omega
    have j4 : (mem.points a).m_extra_data ≠ mem.next + 1 := by omega
    refine ⟨?_, ?_, ?_, ?_, ?_, ⟨?_, ?_, ?_, ?_⟩, ⟨?_, ?_⟩, ⟨?_, ?_⟩, ⟨?_, ?_⟩⟩ <;>
    simp [operator_assign, copy_swap_extra_data, copy_swap_format_data, vector_new,
      vector_delete, store, read, bytes, write_extra_data, write_format_data, Function.update,
      hab, hab.symm, h1, h2, h3, h4, h1.symm, h2.symm, h3.symm, h4.symm,
      s3, s4, s5, s6, s3.symm, s4.symm, s5.symm, s6.symm, j1, j2, j3, j4,
      j1.symm, j2.symm, j3.symm, j4.symm]
  all_goals
    simp [Point_copy, operator_assign, copy_swap_extra_data, copy_swap_format_data, vector_new,
      vector_delete, store, read, bytes, write_extra_data, write_format_data, Function.update,
      hab, hab.symm, h1, h2, h3, h4, h5, h6, h7, h8, h1.symm, h2.symm, h3.symm, h4.symm,
      h5.symm, h6.symm, h7.symm, h8.symm, k1, k2, k3]

/-- The copy and the assignment in the sample memory, from the object at
address 0 to the address 1: the hypotheses hold there, and after a change to
the buffers of the object at address 1 the record at address 0 is as before. -/
theorem copy_and_assignment_witness :
    ((1 : Nat) ≠ 0 ∧ (sampleMemory.points 0).m_extra_data < sampleMemory.next ∧
      (sampleMemory.points 0).m_format_data < sampleMemory.next ∧
      sampleMemory.Separate 1 0) ∧
    (((sampleMemory.Point_copy 1 0).write_extra_data 1 [7, 7]).read 0 = sampleMemory.read 0 ∧
      ((sampleMemory.Point_copy 1 0).write_format_data 1 [8]).read 0 = sampleMemory.read 0) ∧
    (((sampleMemory.operator_assign 1 0).write_extra_data 1 [7, 7]).read 0 =
        sampleMemory.read 0 ∧
      ((sampleMemory.operator_assign 1 0).write_format_data 1 [8]).read 0 =
        sampleMemory.read 0) :=
  ⟨⟨by decide, by decide, by decide, by decide⟩,
    (copy_and_assignment sampleMemory 1 0 samplePoint samplePoint [7, 7] [8] (by decide)
      (by decide) (by decide)).1.2.2.2.2.2.2.1,
    ((copy_and_assignment sampleMemory 1 0 samplePoint samplePoint [7, 7] [8] (by decide)
      (by decide) (by decide)).2.1 (by decide)).2.2.2.2.2.2.1⟩

end Memory
end liblas
